import Mathlib

/-! # Rider service front end: simulation driver, resume logic and fallback routes

A shallow embedding of the delivery simulation of
`frontend/src/components/RiderDeviceImproved.jsx` and of the fallback route
interpolation of `frontend/src/api/routing.js`, together with the driver of
`RiderDeviceNew.jsx`, the helpers `generateUUID` and `roundCoordinate` of the
order forms and the message handler of the order tracker.

* JavaScript numbers that act as indices are modelled as `Int`; coordinates are
  modelled as rationals (exact arithmetic).
* The interval callback created by `startSimulationFromIndex` is the function
  `intervalTick` on a `Driver`: the variables captured by the callback
  (`currentIndex`, `pickupReached`, `routePoints`, `delivery`), the shared
  reference `statusRef`, the pending one-shot dwell timers and the log of the
  calls the callback made to `sendLocationViaWebSocket` and
  `handleUpdateStatus`.
* The component level (`isSimulating`, `simulationRef`, the interval timers
  alive in the browser) is the structure `Component`. React state is read by
  a closure as the render that created the closure captured it, so a call
  takes two components: the captured one and the live one (`Mounted`).
* Requests are modelled by their outcome: `ProviderOutcome` for the route
  provider, `Network` for the checkpoint write and the socket, and optional
  answers for the fetches of `restoreDeliveryState` and `handleAcceptDelivery`.
  A thrown exception or a rejected promise is an `Except.error`.
-/

namespace RiderService

/-! ## Data model -/

/-- A waypoint `{ lat, lng }`. -/
structure Point where
  lat : ℚ
  lng : ℚ
deriving DecidableEq, Repr

/-- The values of `statusRef.current` / `simulation_status` the component
distinguishes; every other string behaves like `other`. -/
inductive SimStatus where
  | idle
  | accepted
  | going_to_pickup
  | at_pickup
  | going_to_delivery
  | completed
  | cancelled
  | other
deriving DecidableEq, Repr

/-- The delivery status strings passed to `handleUpdateStatus`. -/
inductive DeliveryStatus where
  | in_progress
  | completed
deriving DecidableEq, Repr

/-- The delivery object handed to the driver; only `delivery_id` is read. -/
structure Delivery where
  delivery_id : Nat
deriving DecidableEq, Repr

/-- The calls with an outside effect made by the interval callback.
`sendLocationViaWebSocket location deliveryId routeIndex simStatus` persists a
checkpoint through `deliveryAPI.updateStatus` and sends a `location_update`
over the socket; `handleUpdateStatus status` persists a status change. -/
inductive Effect where
  | sendLocationViaWebSocket (location : Option Point) (deliveryId : Nat)
      (routeIndex : Int) (simStatus : SimStatus)
  | handleUpdateStatus (status : DeliveryStatus)
deriving DecidableEq, Repr

/-- JavaScript array read `routePoints[i]`: `undefined` (here `none`) outside
the array. -/
def getPoint (routePoints : List Point) (i : Int) : Option Point :=
  if 0 ≤ i then routePoints.get? i.toNat else none

/-! ## Fallback route (`routing.js`, `calculateDirectRoute`) -/

/-- The loop of `calculateDirectRoute`: for `i = 0 .. numPoints` push
`start + (end - start) * (i / numPoints)`. -/
def calculateDirectRoute (start finish : Point) (numPoints : Nat) : List Point :=
  (List.range (numPoints + 1)).map fun (i : Nat) =>
    let ratio : ℚ := (i : ℚ) / (numPoints : ℚ)
    { lat := start.lat + (finish.lat - start.lat) * ratio
      lng := start.lng + (finish.lng - start.lng) * ratio }

/-- The default argument `numPoints = 50`. -/
def defaultNumPoints : Nat := 50

/-! ## The simulation driver (`RiderDeviceImproved.jsx`, lines 174-229) -/

/-- State of one driver: the closure of the interval callback together with
the references and timers it touches. -/
structure Driver where
  /-- The captured `routePoints`. -/
  routePoints : List Point
  /-- The captured `delivery`. -/
  delivery : Delivery
  /-- The reference `statusRef.current`. -/
  statusRef : SimStatus
  /-- The captured `let currentIndex`. -/
  currentIndex : Int
  /-- The captured `let pickupReached`. -/
  pickupReached : Bool
  /-- The React state written by `setCurrentRouteIndex`. -/
  currentRouteIndex : Int
  /-- Number of pending one-shot dwell timers (`setTimeout(..., 3000)`). -/
  dwellTimers : Nat
  /-- Calls made so far, oldest first. -/
  log : List Effect
deriving DecidableEq, Repr

/-- `Math.floor(routePoints.length / 2)`. -/
def pickupIndexOf (routePoints : List Point) : Int :=
  ((routePoints.length / 2 : Nat) : Int)

/-- The constant `pickupIndex` of a driver. -/
def Driver.pickupIndex (d : Driver) : Int := pickupIndexOf d.routePoints

/-- `routePoints.length` as a number. -/
def Driver.len (d : Driver) : Int := (d.routePoints.length : Int)

/-- The state right after `startSimulationFromIndex delivery startIndex simStatus`
passed its guard (lines 177-183); `simStatus = none` stands for a falsy
argument. -/
def Driver.start (routePoints : List Point) (delivery : Delivery) (startIndex : Int)
    (simStatus : Option SimStatus) : Driver :=
  { routePoints := routePoints
    delivery := delivery
    statusRef := simStatus.getD SimStatus.going_to_pickup
    currentIndex := startIndex
    pickupReached :=
      decide (simStatus = some SimStatus.at_pickup) ||
      decide (simStatus = some SimStatus.going_to_delivery) ||
      decide (startIndex ≥ pickupIndexOf routePoints)
    currentRouteIndex := startIndex
    dwellTimers := 0
    log := [] }

/-- One run of the interval callback (lines 185-228). In the arrival branch the
one-shot dwell timer is counted as pending at once: it is set when
`handleUpdateStatus('in_progress')` settles, and that call never rejects (its
body is wrapped in `try`/`catch`). -/
def intervalTick (d : Driver) : Driver :=
  if d.statusRef = SimStatus.at_pickup then d
  else
    let currentIndex := d.currentIndex + 1
    if d.statusRef = SimStatus.going_to_pickup ∧ currentIndex ≥ d.pickupIndex
        ∧ d.pickupReached = false then
      { d with
        statusRef := SimStatus.at_pickup
        pickupReached := true
        currentIndex := currentIndex
        currentRouteIndex := d.pickupIndex
        dwellTimers := d.dwellTimers + 1
        log := d.log ++
          [Effect.sendLocationViaWebSocket (getPoint d.routePoints d.pickupIndex)
              d.delivery.delivery_id d.pickupIndex SimStatus.at_pickup,
           Effect.handleUpdateStatus DeliveryStatus.in_progress] }
    else if d.statusRef = SimStatus.going_to_delivery ∧ currentIndex ≥ d.len then
      { d with
        statusRef := SimStatus.completed
        currentIndex := currentIndex
        currentRouteIndex := d.len - 1
        log := d.log ++
          [Effect.sendLocationViaWebSocket (getPoint d.routePoints (d.len - 1))
              d.delivery.delivery_id (d.len - 1) SimStatus.completed,
           Effect.handleUpdateStatus DeliveryStatus.completed] }
    else if currentIndex < d.len then
      { d with
        currentIndex := currentIndex
        currentRouteIndex := currentIndex
        log := d.log ++
          [Effect.sendLocationViaWebSocket (getPoint d.routePoints currentIndex)
              d.delivery.delivery_id currentIndex d.statusRef] }
    else
      { d with currentIndex := currentIndex }

/-- Expiry of a pending dwell timer (lines 202-204): the callback sets
`statusRef.current = 'going_to_delivery'`. Without a pending timer nothing
happens. -/
def dwellExpiry (d : Driver) : Driver :=
  if d.dwellTimers = 0 then d
  else { d with statusRef := SimStatus.going_to_delivery, dwellTimers := d.dwellTimers - 1 }

/-- The events a driver reacts to. -/
inductive Event where
  | tick
  | dwell
deriving DecidableEq, Repr

/-- Reaction to one event. -/
def step (d : Driver) : Event → Driver
  | Event.tick => intervalTick d
  | Event.dwell => dwellExpiry d

/-- Reaction to a sequence of events, first event first. -/
def run (d : Driver) (events : List Event) : Driver :=
  events.foldl step d

/-- `n` consecutive interval ticks. -/
def ticks : Nat → Driver → Driver
  | 0, d => d
  | n + 1, d => ticks n (intervalTick d)

/-- The route indices carried by the location reports of a log, in order. -/
def reportIndices : List Effect → List Int
  | [] => []
  | Effect.sendLocationViaWebSocket _ _ i _ :: es => i :: reportIndices es
  | Effect.handleUpdateStatus _ :: es => reportIndices es

/-- The simulation statuses carried by the location reports of a log. -/
def reportStatuses : List Effect → List SimStatus
  | [] => []
  | Effect.sendLocationViaWebSocket _ _ _ s :: es => s :: reportStatuses es
  | Effect.handleUpdateStatus _ :: es => reportStatuses es

/-! ## Resume (`restoreDeliveryState`, lines 126-156) -/

/-- Line 128: `state.current_route_index || 0`; `none` stands for a missing
(or `null`) field, and `0` is falsy as well. -/
def savedRouteIndex (current_route_index : Option Int) : Int :=
  match current_route_index with
  | none => 0
  | some i => if i = 0 then 0 else i

/-- Line 142: `Math.min(savedRouteIndex, routePoints.length - 1)`. -/
def resumeIndex (current_route_index : Option Int) (routePoints : List Point) : Int :=
  min (savedRouteIndex current_route_index) ((routePoints.length : Int) - 1)

/-- The driver that `restoreDeliveryState` resumes (line 155) for a saved
simulation status and route index, once the route is there. -/
def resumeDriver (routePoints : List Point) (delivery : Delivery)
    (current_route_index : Option Int) (simulation_status : SimStatus) : Driver :=
  Driver.start routePoints delivery (resumeIndex current_route_index routePoints)
    (some simulation_status)

/-! ## Component level: the lock `isSimulating` and the interval timers -/

/-- An interval timer alive in the browser, with the variables its callback
captured. -/
structure Interval where
  handle : Nat
  routePoints : List Point
  delivery : Delivery
  currentIndex : Int
  pickupReached : Bool
deriving DecidableEq, Repr

/-- The state of `RiderDeviceImproved` that starting and stopping touch. -/
structure Component where
  routePoints : List Point
  currentRouteIndex : Int
  isSimulating : Bool
  /-- The reference `statusRef.current`. -/
  statusRef : SimStatus
  /-- The reference `simulationRef.current`: handle of the stored timer. -/
  simulationRef : Option Nat
  /-- Every interval timer created by `setInterval` and not yet cleared. -/
  intervals : List Interval
  /-- The handle the next `setInterval` returns. -/
  nextHandle : Nat
deriving DecidableEq, Repr

/-- The component as mounted: no route, nothing running. -/
def Component.initial : Component :=
  { routePoints := []
    currentRouteIndex := 0
    isSimulating := false
    statusRef := SimStatus.idle
    simulationRef := none
    intervals := []
    nextHandle := 1 }

/-- The function `startSimulationFromIndex` (lines 174-229), called by a closure
of the render that showed `render` while the component is `live`. The guard
and the callback read `routePoints` and `isSimulating` as that render
captured them (they are `useState` constants of the render, line 52, and
`setIsSimulating` does not change them); the references, the timers and the
queued state updates are those of `live`. -/
def startSimulationFromIndex (render live : Component) (delivery : Option Delivery)
    (startIndex : Int) (simStatus : Option SimStatus) : Component :=
  match delivery with
  | none => live
  | some dl =>
    if render.routePoints.length = 0 ∨ render.isSimulating = true then live
    else
      let d := Driver.start render.routePoints dl startIndex simStatus
      { live with
        isSimulating := true
        statusRef := d.statusRef
        currentRouteIndex := startIndex
        simulationRef := some live.nextHandle
        intervals := live.intervals ++
          [{ handle := live.nextHandle, routePoints := d.routePoints, delivery := dl,
             currentIndex := d.currentIndex, pickupReached := d.pickupReached }]
        nextHandle := live.nextHandle + 1 }

/-- The function `startSimulation` (lines 471-473), called by a closure of the
render that showed `render` while the component is `live`. -/
def startSimulation (render live : Component) (delivery : Option Delivery) (startIndex : Int) :
    Component :=
  startSimulationFromIndex render live delivery startIndex (some SimStatus.going_to_pickup)

/-- The function `stopSimulation` (lines 475-481). -/
def stopSimulation (c : Component) : Component :=
  match c.simulationRef with
  | some h =>
    { c with
      intervals := c.intervals.filter fun t => decide (t.handle ≠ h)
      simulationRef := none
      isSimulating := false }
  | none => { c with isSimulating := false }

/-- The calls that start or stop a simulation, and a change of the route. -/
inductive Call where
  | startSimulationFromIndex (delivery : Option Delivery) (startIndex : Int)
      (simStatus : Option SimStatus)
  | startSimulation (delivery : Option Delivery) (startIndex : Int)
  | stopSimulation
  | setRoutePoints (routePoints : List Point)
deriving DecidableEq, Repr

/-- The component between two renders: `render` is the state the closures of
the last render captured, `live` holds the references, the timers and the
state updates made since. -/
structure Mounted where
  render : Component
  live : Component
deriving DecidableEq, Repr

/-- The component as mounted and rendered once. -/
def Mounted.initial : Mounted :=
  { render := Component.initial, live := Component.initial }

/-- What happens to a mounted component: a call made by a closure of the last
render, or a new render, which shows the live state to the next closures. -/
inductive Step where
  | call (c : Call)
  | rerender
deriving DecidableEq, Repr

/-- Effect of one call made by a closure of the last render. -/
def Mounted.call (m : Mounted) : Call → Mounted
  | Call.startSimulationFromIndex dl i s =>
    { m with live := startSimulationFromIndex m.render m.live dl i s }
  | Call.startSimulation dl i => { m with live := startSimulation m.render m.live dl i }
  | Call.stopSimulation => { m with live := stopSimulation m.live }
  | Call.setRoutePoints r => { m with live := { m.live with routePoints := r } }

/-- Effect of one step. -/
def Mounted.step (m : Mounted) : Step → Mounted
  | Step.call c => m.call c
  | Step.rerender => { m with render := m.live }

/-- Effect of a sequence of steps, first step first. -/
def Mounted.steps (m : Mounted) (ss : List Step) : Mounted :=
  ss.foldl Mounted.step m

/-- Example: the component after a route of two waypoints was set and shown
and a simulation was started from that render. -/
def Component.running : Component :=
  startSimulation { Component.initial with routePoints := [⟨0, 0⟩, ⟨1, 1⟩] }
    { Component.initial with routePoints := [⟨0, 0⟩, ⟨1, 1⟩] } (some ⟨7⟩) 0

/-! ## Route provider (`routing.js`, `routingAPI.calculateRoute`) -/

/-- The field `code` of the provider's answer: `'Ok'` or any other string. -/
inductive ResponseCode where
  | Ok
  | other
deriving DecidableEq, Repr

/-- One entry of `data.routes`. The pairs are `[lng, lat]`; `none` stands for
a missing `geometry` or `geometry.coordinates`. -/
structure ProviderRoute where
  coordinates : Option (List (ℚ × ℚ))
deriving DecidableEq, Repr

/-- What the request to the route provider does. -/
inductive ProviderOutcome where
  /-- The call `fetch` or `response.json()` rejects. -/
  | fetchThrows
  /-- The field `response.ok` is false. -/
  | notOk
  /-- The answer `data` with its `code` and `routes` (empty when missing). -/
  | answered (code : ResponseCode) (routes : List ProviderRoute)
deriving DecidableEq, Repr

/-- The `try` block of `routingAPI.calculateRoute` (lines 10-29); an error is
an exception thrown inside the block. -/
def calculateRouteTry (start finish : Point) : ProviderOutcome → Except String (List Point)
  | ProviderOutcome.fetchThrows => Except.error "fetch failed"
  | ProviderOutcome.notOk => Except.ok (calculateDirectRoute start finish defaultNumPoints)
  | ProviderOutcome.answered code routes =>
    match code, routes.head? with
    | ResponseCode.Ok, some r =>
      match r.coordinates with
      | some geometry => Except.ok (geometry.map fun coord => { lat := coord.2, lng := coord.1 })
      | none => Except.error "TypeError"
    | _, _ => Except.ok (calculateDirectRoute start finish defaultNumPoints)

/-- The function `routingAPI.calculateRoute` (lines 8-34): the `try` block and
its `catch`, which returns the direct route. -/
def calculateRoute (start finish : Point) (outcome : ProviderOutcome) :
    Except String (List Point) :=
  match calculateRouteTry start finish outcome with
  | Except.ok route => Except.ok route
  | Except.error _ => Except.ok (calculateDirectRoute start finish defaultNumPoints)

/-! ## Deliveries, `setupRoute` and `restoreDeliveryState` -/

/-- The `status` strings of a delivery record. -/
inductive RecordStatus where
  | assigned
  | accepted
  | in_progress
  | collected
  | completed
  | cancelled
  | denied
  | other
deriving DecidableEq, Repr

/-- The delivery object kept in `currentDelivery`. -/
structure DeliveryRecord where
  delivery_id : Nat
  status : RecordStatus
  pickup_location : Option Point
  delivery_location : Option Point
deriving DecidableEq, Repr

/-- The argument that `startSimulationFromIndex` reads from a delivery record. -/
def DeliveryRecord.toDelivery (r : DeliveryRecord) : Delivery :=
  { delivery_id := r.delivery_id }

/-- The function `setupRoute` (lines 400-426) with the values of
`currentDelivery` and `currentLocation` it sees and the outcomes of its two
provider requests. -/
def setupRoute (currentDelivery : Option DeliveryRecord) (currentLocation : Option Point)
    (outcome1 outcome2 : ProviderOutcome) (c : Component) : Component :=
  match currentDelivery, currentLocation with
  | some dl, some loc =>
    match dl.pickup_location, dl.delivery_location with
    | some pickup, some delivery =>
      if pickup.lat = 0 ∨ delivery.lat = 0 then c
      else
        match calculateRoute loc pickup outcome1, calculateRoute pickup delivery outcome2 with
        | Except.ok route1, Except.ok route2 =>
          { c with routePoints := route1 ++ route2, currentRouteIndex := 0 }
        | _, _ =>
          { c with
            routePoints := calculateDirectRoute loc pickup defaultNumPoints ++
              calculateDirectRoute pickup delivery defaultNumPoints }
    | _, _ => c
  | _, _ => c

/-- An entry of the list returned by `riderAPI.getActiveDeliveries`. -/
structure ActiveDelivery where
  delivery_id : Nat
  status : RecordStatus
deriving DecidableEq, Repr

/-- The field `order` of the state returned by `deliveryAPI.getState`. -/
structure OrderInfo where
  pickup_location : Option Point
  delivery_location : Option Point
deriving DecidableEq, Repr

/-- The state returned by `deliveryAPI.getState`. -/
structure FetchedState where
  delivery_id : Nat
  status : RecordStatus
  order : Option OrderInfo
  last_location : Option Point
  simulation_status : Option SimStatus
  current_route_index : Option Int
deriving DecidableEq, Repr

/-- The arguments of a call of `startSimulationFromIndex`. -/
structure StartCall where
  delivery : DeliveryRecord
  startIndex : Int
  simStatus : SimStatus
deriving DecidableEq, Repr

/-- Truthiness of `location && location.lat` / `last_location?.lat`. -/
def hasLat (p : Option Point) : Bool :=
  match p with
  | some q => decide (q.lat ≠ 0)
  | none => false

/-- The function `restoreDeliveryState` (lines 76-172), reduced to the call of
`startSimulationFromIndex` it ends in, if any. `deliveries`, `state` and
`riderLocation` are the answers of the three requests (`none`: the request
rejects, which the `catch` swallows; a falsy state counts as `none` too);
`routePoints` and `isSimulating` are the values the route check of lines
138-157 reads. -/
def restoreDeliveryState (activeRider : Option Nat) (deliveries : Option (List ActiveDelivery))
    (state : Option FetchedState) (riderLocation : Option (Option Point))
    (routePoints : List Point) (isSimulating : Bool) : Option StartCall :=
  match activeRider, deliveries with
  | some _, some ds =>
    match ds.find? fun d =>
        decide (d.status = RecordStatus.accepted) || decide (d.status = RecordStatus.in_progress)
          || decide (d.status = RecordStatus.collected), state with
    | some _, some st =>
      match st.order with
      | none => none
      | some order =>
        let restoredDelivery : DeliveryRecord :=
          { delivery_id := st.delivery_id, status := st.status,
            pickup_location := order.pickup_location,
            delivery_location := order.delivery_location }
        let restoredLocation : Option (Option Point) :=
          if hasLat st.last_location then some st.last_location
          else
            match riderLocation with
            | none => none
            | some location => some (if hasLat location then location else none)
        match restoredLocation, st.simulation_status with
        | some (some _), some simulation_status =>
          if simulation_status ≠ SimStatus.idle ∧ simulation_status ≠ SimStatus.completed then
            if routePoints.length > 0 then
              if simulation_status ≠ SimStatus.completed ∧ isSimulating = false then
                some { delivery := restoredDelivery
                       startIndex := resumeIndex st.current_route_index routePoints
                       simStatus := simulation_status }
              else none
            else none
          else none
        | _, _ => none
    | _, _ => none
  | _, _ => none

/-! ## Requests and socket: `sendLocationViaWebSocket`, `handleUpdateStatus` -/

/-- What the network does during one tick. -/
structure Network where
  /-- The request `deliveryAPI.updateStatus` resolves. -/
  writeOk : Bool
  /-- The test `wsRef.current?.readyState === WebSocket.OPEN` holds. -/
  socketOpen : Bool
deriving DecidableEq, Repr

/-- The React state captured by the closure `handleUpdateStatus`. -/
structure Captured where
  currentDelivery : Option DeliveryRecord
  currentLocation : Option Point
  currentRouteIndex : Int
deriving DecidableEq, Repr

/-- What leaves the device: a request `deliveryAPI.updateStatus(deliveryId,
status, location, routeIndex, simulationStatus)` and a `location_update`
message sent over the socket. -/
inductive WireEffect where
  | updateStatus (deliveryId : Nat) (status : Option DeliveryStatus) (location : Option Point)
      (routeIndex : Int) (simulationStatus : SimStatus)
  | locationUpdate (lat lng : ℚ) (deliveryId : Nat)
deriving DecidableEq, Repr

/-- The function `sendLocationViaWebSocket` (lines 440-469). The request is
issued in a `try` whose `catch` only logs, so its outcome does not show; the
message is built from `location.lat`, which throws for an undefined location.
An error is a rejection of the returned promise. -/
def sendLocationViaWebSocket (net : Network) (location : Option Point) (deliveryId : Nat)
    (routeIndex : Int) (simStatus : SimStatus) : Except String (List WireEffect) :=
  let persisted := [WireEffect.updateStatus deliveryId none location routeIndex simStatus]
  if net.socketOpen = true then
    match location with
    | some p => Except.ok (persisted ++ [WireEffect.locationUpdate p.lat p.lng deliveryId])
    | none => Except.error "TypeError"
  else Except.ok persisted

/-- The function `handleUpdateStatus` (lines 379-398) on the component: the
request it issues, if any, and the call of `stopSimulation` after a successful
`completed` update. `statusRef.current` is read from the component. -/
def handleUpdateStatus (net : Network) (cap : Captured) (status : DeliveryStatus)
    (c : Component) : Component × List WireEffect :=
  match cap.currentDelivery, cap.currentLocation with
  | some dl, some loc =>
    let request := [WireEffect.updateStatus dl.delivery_id (some status) (some loc)
      cap.currentRouteIndex c.statusRef]
    if net.writeOk = true then
      if status = DeliveryStatus.completed then (stopSimulation c, request) else (c, request)
    else (c, request)
  | _, _ => (c, [])

/-- One call made by the interval callback, carried out on the component. -/
def performEffect (net : Network) (cap : Captured) (c : Component) :
    Effect → Component × Except String (List WireEffect)
  | Effect.sendLocationViaWebSocket location deliveryId routeIndex simStatus =>
    (c, sendLocationViaWebSocket net location deliveryId routeIndex simStatus)
  | Effect.handleUpdateStatus status =>
    ((handleUpdateStatus net cap status c).1, Except.ok (handleUpdateStatus net cap status c).2)

/-- The calls of a list carried out in order. -/
def performEffects (net : Network) (cap : Captured) :
    Component → List Effect → Component × List (Except String (List WireEffect))
  | c, [] => (c, [])
  | c, e :: es =>
    ((performEffects net cap (performEffect net cap c e).1 es).1,
     (performEffect net cap c e).2 :: (performEffects net cap (performEffect net cap c e).1 es).2)

/-- One run of the interval callback together with the calls it makes: the
driver after the tick, the component after the calls have settled, and the
outcome of each call. -/
def tickOn (net : Network) (cap : Captured) (d : Driver) (c : Component) :
    Driver × Component × List (Except String (List WireEffect)) :=
  let d1 := intervalTick d
  let c1 := { c with statusRef := d1.statusRef, currentRouteIndex := d1.currentRouteIndex }
  (d1, performEffects net cap c1 (d1.log.drop d.log.length))

/-! ## Accepting a delivery (`handleAcceptDelivery`, lines 336-365) -/

/-- The local state that accepting a delivery touches. -/
structure Device where
  component : Component
  currentDelivery : Option DeliveryRecord
  currentLocation : Option Point
  activeDeliveries : List ActiveDelivery
  /-- The pending start timers (`setTimeout(..., 2000)`), each with the delivery
  it would start. -/
  startTimers : List DeliveryRecord
deriving DecidableEq, Repr

/-- The function `handleAcceptDelivery`. `accepted` tells whether
`deliveryAPI.accept` resolves (it rejects for instance when the delivery was
already accepted); `fetched` and `location` are the answers of
`getActiveDeliveries` and `getLocation` (`none`: failed), and the two provider
outcomes belong to `setupRoute`. The handler reads `currentLocation` and
`currentDelivery` as they were when it was called. -/
def handleAcceptDelivery (dev : Device) (delivery : DeliveryRecord) (accepted : Bool)
    (fetched : Option (List ActiveDelivery)) (location : Option Point)
    (outcome1 outcome2 : ProviderOutcome) : Device :=
  if accepted = false then dev
  else
    let updatedDelivery := { delivery with status := RecordStatus.accepted }
    let c1 := { dev.component with statusRef := SimStatus.accepted }
    let located : Option Point :=
      match dev.currentLocation with
      | some l => some l
      | none => if hasLat location then location else none
    let c2 :=
      if dev.currentLocation.isSome ∧ updatedDelivery.pickup_location.isSome
          ∧ updatedDelivery.delivery_location.isSome then
        setupRoute dev.currentDelivery dev.currentLocation outcome1 outcome2 c1
      else c1
    { component := c2
      currentDelivery := some updatedDelivery
      currentLocation := located
      activeDeliveries := fetched.getD dev.activeDeliveries
      startTimers := dev.startTimers ++ [updatedDelivery] }

/-! ## The driver of `RiderDeviceNew.jsx` (`startSimulation`, lines 213-262) -/

/-- The calls with an outside effect made by the interval callback of
`RiderDeviceNew`. -/
inductive RiderDeviceNew.Effect where
  | updateStatus (deliveryId : Nat) (status : DeliveryStatus) (location : Option Point)
  | sendLocationViaWebSocket (location : Option Point) (deliveryId : Nat)
  | stopSimulation
deriving DecidableEq, Repr

/-- State of the driver of `RiderDeviceNew`: the closure of its interval
callback, `statusRef`, the pending dwell timers and the calls made so far. -/
structure RiderDeviceNew.Driver where
  routePoints : List Point
  delivery : Delivery
  statusRef : SimStatus
  currentIndex : Int
  pickupReached : Bool
  currentRouteIndex : Int
  dwellTimers : Nat
  log : List RiderDeviceNew.Effect
deriving DecidableEq, Repr

/-- The state right after `startSimulation(delivery)` passed its guard (lines
216-222). -/
def RiderDeviceNew.startSimulation (routePoints : List Point) (delivery : Delivery) :
    RiderDeviceNew.Driver :=
  { routePoints := routePoints
    delivery := delivery
    statusRef := SimStatus.going_to_pickup
    currentIndex := 0
    pickupReached := false
    currentRouteIndex := 0
    dwellTimers := 0
    log := [] }

/-- One run of the interval callback of `RiderDeviceNew` (lines 224-261).
`updateOk` tells whether the request `deliveryAPI.updateStatus` issued by this
tick resolves; the dwell timer is set in the `then` of the `in_progress`
request, which has no `catch`, and `deliveryAPI.updateStatus` rethrows every
failure. -/
def RiderDeviceNew.intervalTick (updateOk : Bool) (d : RiderDeviceNew.Driver) :
    RiderDeviceNew.Driver :=
  if d.statusRef = SimStatus.at_pickup then d
  else
    let currentIndex := d.currentIndex + 1
    let pickupIndex := pickupIndexOf d.routePoints
    let len : Int := (d.routePoints.length : Int)
    if d.statusRef = SimStatus.going_to_pickup ∧ currentIndex ≥ pickupIndex
        ∧ d.pickupReached = false then
      { d with
        statusRef := SimStatus.at_pickup
        pickupReached := true
        currentIndex := currentIndex
        currentRouteIndex := pickupIndex
        dwellTimers := if updateOk = true then d.dwellTimers + 1 else d.dwellTimers
        log := d.log ++
          [RiderDeviceNew.Effect.updateStatus d.delivery.delivery_id DeliveryStatus.in_progress
            (getPoint d.routePoints pickupIndex)] }
    else if d.statusRef = SimStatus.going_to_delivery ∧ currentIndex ≥ len then
      { d with
        statusRef := SimStatus.completed
        currentIndex := currentIndex
        currentRouteIndex := len - 1
        log := d.log ++
          [RiderDeviceNew.Effect.updateStatus d.delivery.delivery_id DeliveryStatus.completed
            (getPoint d.routePoints (len - 1)),
           RiderDeviceNew.Effect.stopSimulation] }
    else if currentIndex < len then
      { d with
        currentIndex := currentIndex
        currentRouteIndex := currentIndex
        log := d.log ++
          [RiderDeviceNew.Effect.sendLocationViaWebSocket (getPoint d.routePoints currentIndex)
            d.delivery.delivery_id] }
    else
      { d with currentIndex := currentIndex }

/-- Expiry of a pending dwell timer of `RiderDeviceNew` (lines 237-239). -/
def RiderDeviceNew.dwellExpiry (d : RiderDeviceNew.Driver) : RiderDeviceNew.Driver :=
  if d.dwellTimers = 0 then d
  else { d with statusRef := SimStatus.going_to_delivery, dwellTimers := d.dwellTimers - 1 }

/-- The events the driver of `RiderDeviceNew` reacts to; a tick carries the
outcome of the request it may issue. -/
inductive RiderDeviceNew.Event where
  | tick (updateOk : Bool)
  | dwell
deriving DecidableEq, Repr

/-- Reaction of the driver of `RiderDeviceNew` to one event. -/
def RiderDeviceNew.step (d : RiderDeviceNew.Driver) : RiderDeviceNew.Event → RiderDeviceNew.Driver
  | RiderDeviceNew.Event.tick updateOk => RiderDeviceNew.intervalTick updateOk d
  | RiderDeviceNew.Event.dwell => RiderDeviceNew.dwellExpiry d

/-- Reaction of the driver of `RiderDeviceNew` to a sequence of events. -/
def RiderDeviceNew.run (d : RiderDeviceNew.Driver) (events : List RiderDeviceNew.Event) :
    RiderDeviceNew.Driver :=
  events.foldl RiderDeviceNew.step d

/-! ## Order placement helpers (`OrderPlacement.jsx`, `ClientPage.jsx`) -/

/-- The call `v.toString(16)`. -/
def toString16 (v : Nat) : List Char := Nat.toDigits 16 v

/-- The template string of `generateUUID`. -/
def uuidTemplate : String := "xxxxxxxx-xxxx-4xxx-yxxx-xxxxxxxxxxxx"

/-- The call `template.replace(/[xy]/g, f)` of `generateUUID` on the characters
left to scan: every `x` or `y` is replaced by the hexadecimal digit computed
from the next draw `r = Math.random() * 16 | 0`, the `n`-th draw being
`draws n`. -/
def replaceXY (draws : Nat → Fin 16) : Nat → List Char → List Char
  | _, [] => []
  | n, c :: cs =>
    if c = 'x' ∨ c = 'y' then
      let r := (draws n).val
      let v := if c = 'x' then r else (r &&& 0x3) ||| 0x8
      toString16 v ++ replaceXY draws (n + 1) cs
    else c :: replaceXY draws n cs

/-- The function `generateUUID` for a sequence of random draws. -/
def generateUUID (draws : Nat → Fin 16) : String :=
  String.mk (replaceXY draws 0 uuidTemplate.toList)

/-- A lowercase hexadecimal digit. -/
def isLowerHex (c : Char) : Bool := decide (c ∈ "0123456789abcdef".toList)

/-- The call `coord.toFixed(digits)` read as an exact decimal: the magnitude is
rounded to the nearest multiple of `10^-digits`, a tie going to the larger
one, and the sign is put back. -/
def toFixed (coord : ℚ) (digits : Nat) : ℚ :=
  if coord < 0 then -((⌊(-coord) * (10 : ℚ) ^ digits + 1 / 2⌋ : Int) : ℚ) / (10 : ℚ) ^ digits
  else ((⌊coord * (10 : ℚ) ^ digits + 1 / 2⌋ : Int) : ℚ) / (10 : ℚ) ^ digits

/-- The function `roundCoordinate`: `parseFloat(coord.toFixed(8))`, over exact
decimals. -/
def roundCoordinate (coord : ℚ) : ℚ := toFixed coord 8

/-- Modelled from the spec: the decimal field of the order store is not part of
the sources; a value fits a decimal field with `maxDigits` digits in total,
`decimalPlaces` of them after the point, when it is an integer multiple of
`10^-decimalPlaces` whose digits, point removed, number at most `maxDigits`. -/
def fitsDecimal (maxDigits decimalPlaces : Nat) (q : ℚ) : Prop :=
  (q * (10 : ℚ) ^ decimalPlaces).den = 1 ∧
    |(q * (10 : ℚ) ^ decimalPlaces).num| < (10 : Int) ^ maxDigits

instance fitsDecimal.decidable (maxDigits decimalPlaces : Nat) (q : ℚ) :
    Decidable (fitsDecimal maxDigits decimalPlaces q) := by
  unfold fitsDecimal
  infer_instance

/-! ## Order tracker (`OrderTracking.jsx`, `OrderTrackingNew.jsx`, `ws.onmessage`) -/

/-- The tracked order record: its `status`, its `rider` and the rest of its
fields, taken as one value. -/
structure OrderRecord where
  status : Option String
  rider : Option Nat
  details : Option Nat
deriving DecidableEq, Repr

/-- The state of the tracker that the message handler touches. -/
structure Tracker where
  order : Option OrderRecord
  riderLocation : Option Point
  /-- Pending calls of `fetchOrderData` scheduled by the handler. -/
  refetches : Nat
deriving DecidableEq, Repr

/-- A message as the handler sees it after `JSON.parse`: its `type` and the
object `data.data` with the fields the branch reads (`none`: `data.data` is
missing); `unparsable` is a message on which `JSON.parse` or the read of
`data.type` throws. -/
inductive Message where
  | rider_assigned (data : Option (Option Nat))
  | location_update (data : Option (Option Point))
  | order_status (data : Option (OrderRecord × Option Point))
  | order_update (data : Option (Option String × Option String))
  | other (type : String)
  | unparsable
deriving DecidableEq, Repr

/-- Truthiness of a string field: missing and empty are falsy. -/
def truthy (s : Option String) : Option String :=
  match s with
  | some v => if v = "" then none else some v
  | none => none

/-- The spread `{ ...prev }` of the previous order, `null` giving no field. -/
def spreadOrder (prev : Option OrderRecord) : OrderRecord :=
  prev.getD { status := none, rider := none, details := none }

/-- The handler `ws.onmessage` of the order tracker (`OrderTracking.jsx` lines
105-137) together with the `setOrder` updaters it queues. An error is an
exception thrown by such an updater: the updaters of `rider_assigned` and
`order_update` read `data.data` and `prev.status` when React runs them,
outside the `try`/`catch` of the handler, so the exception is not caught and
the tracker crashes. The reads of `location_update` and `order_status` happen
inside the `try`. `refetchOnAssign` is true for `OrderTrackingNew.jsx`, which
also refetches on `rider_assigned`. -/
def onMessage (refetchOnAssign : Bool) (t : Tracker) : Message → Except String Tracker
  | Message.rider_assigned data =>
    match data with
    | some rider =>
      Except.ok
        { t with
          order := some { spreadOrder t.order with rider := rider, status := some "assigned" }
          refetches := if refetchOnAssign = true then t.refetches + 1 else t.refetches }
    | none => Except.error "TypeError"
  | Message.location_update data =>
    match data with
    | some (some l) => Except.ok { t with riderLocation := some l }
    | some none => Except.ok t
    | none => Except.ok t
  | Message.order_status data =>
    match data with
    | some (order, some l) => Except.ok { t with order := some order, riderLocation := some l }
    | some (order, none) => Except.ok { t with order := some order }
    | none => Except.ok { t with order := none }
  | Message.order_update data =>
    match data with
    | none => Except.error "TypeError"
    | some (order_status, status) =>
      match (truthy order_status).orElse fun _ => truthy status with
      | some s =>
        Except.ok
          { t with
            order := some { spreadOrder t.order with status := some s }
            refetches := t.refetches + 1 }
      | none =>
        match t.order with
        | some prev =>
          Except.ok
            { t with
              order := some { prev with status := prev.status }
              refetches := t.refetches + 1 }
        | none => Except.error "TypeError"
  | Message.other _ => Except.ok t
  | Message.unparsable => Except.ok t

/-! ## Invariants -/

/-- Invariant of a driver on a non-empty route: before the pickup is reached
the counter is below `pickupIndex`, every reported index is at most the
counter and at most the last index, and the reported indices are ordered. -/
structure Driver.Inv (d : Driver) : Prop where
  nonempty : d.routePoints ≠ []
  below : d.statusRef = SimStatus.going_to_pickup → d.pickupReached = false →
    d.currentIndex < d.pickupIndex
  bound : ∀ i ∈ reportIndices d.log, i ≤ d.currentIndex ∧ i ≤ d.len - 1
  sorted : (reportIndices d.log).Pairwise (· ≤ ·)

/-- While the pickup flag is set and the status is not `at_pickup`, no event
sets the status to `at_pickup` or reports it. -/
structure Driver.PastPickup (d : Driver) : Prop where
  reached : d.pickupReached = true
  status : d.statusRef ≠ SimStatus.at_pickup
  silent : SimStatus.at_pickup ∉ reportStatuses d.log

/-- The lock invariant of the component: every live interval timer is the one
stored in `simulationRef`, there is at most one, and none while
`isSimulating` is false. -/
structure Component.Locked (c : Component) : Prop where
  idle : c.isSimulating = false → c.intervals = []
  stored : ∀ t ∈ c.intervals, c.simulationRef = some t.handle
  single : c.intervals.length ≤ 1

/-- The part of a driver state that `n` plain ticks change only in the counter. -/
structure Driver.Advanced (d e : Driver) (n : Nat) : Prop where
  routePoints : e.routePoints = d.routePoints
  delivery : e.delivery = d.delivery
  statusRef : e.statusRef = d.statusRef
  pickupReached : e.pickupReached = d.pickupReached
  dwellTimers : e.dwellTimers = d.dwellTimers
  currentIndex : e.currentIndex = d.currentIndex + n

/-- On every reachable state a `going_to_pickup` driver below `pickupIndex`
has not yet set its pickup flag. -/
def Driver.Fresh (d : Driver) : Prop :=
  d.statusRef = SimStatus.going_to_pickup → d.currentIndex < d.pickupIndex →
    d.pickupReached = false

/-- A location report is located on a route when its index lies inside the
route and its location is the waypoint at that index. -/
def Effect.Located (routePoints : List Point) : Effect → Prop
  | Effect.sendLocationViaWebSocket location _ routeIndex _ =>
    0 ≤ routeIndex ∧ routeIndex < (routePoints.length : Int) ∧
      location = getPoint routePoints routeIndex ∧ location.isSome = true
  | Effect.handleUpdateStatus _ => True

/-- Invariant of a driver started inside a non-empty route: the counter is
not negative and every report so far is located on the route. -/
structure Driver.Located (d : Driver) : Prop where
  nonempty : d.routePoints ≠ []
  counter : 0 ≤ d.currentIndex
  reports : ∀ e ∈ d.log, Effect.Located d.routePoints e

/-- Invariant of a driver started at index `k`: consecutive reported indices
grow by 0 or 1, the last reported index is the counter (or the last index
once the counter has left the route), every index after `k` up to the counter
and inside the route has been reported, a `completed` update is only issued
after the counter has left the route, and the first report, if the route has
a waypoint after `k`, carries `k + 1`. -/
structure Driver.Stepwise (k : Int) (d : Driver) : Prop where
  chain : (reportIndices d.log).Chain' fun a b => a ≤ b ∧ b ≤ a + 1
  last : ∀ a ∈ (reportIndices d.log).getLast?,
    a = d.currentIndex ∨ (a = d.len - 1 ∧ d.len ≤ d.currentIndex)
  covered : ∀ i : Int, k < i → i ≤ d.currentIndex → i < d.len → i ∈ reportIndices d.log
  finished : Effect.handleUpdateStatus DeliveryStatus.completed ∈ d.log → d.len ≤ d.currentIndex
  first : k + 1 < d.len →
    (reportIndices d.log = [] ∧ d.currentIndex = k) ∨
      (reportIndices d.log).head? = some (k + 1)

/-- Invariant of a driver started in `going_to_pickup` at or beyond the pickup
index: the status stays `going_to_pickup`, the pickup flag is set and no
dwell timer is pending. -/
structure Driver.Passed (d : Driver) : Prop where
  status : d.statusRef = SimStatus.going_to_pickup
  reached : d.pickupReached = true
  timers : d.dwellTimers = 0

/-! ## Lemmas on the driver -/

theorem reportIndices_append (a b : List Effect) :
    reportIndices (a ++ b) = reportIndices a ++ reportIndices b := by
  induction a with
  | nil => rfl
  | cons e es ih => cases e <;> simp [reportIndices, ih]

theorem reportStatuses_append (a b : List Effect) :
    reportStatuses (a ++ b) = reportStatuses a ++ reportStatuses b := by
  induction a with
  | nil => rfl
  | cons e es ih => cases e <;> simp [reportStatuses, ih]

theorem intervalTick_routePoints (d : Driver) :
    (intervalTick d).routePoints = d.routePoints := by
  simp only [intervalTick]
  split_ifs <;> rfl

theorem dwellExpiry_routePoints (d : Driver) :
    (dwellExpiry d).routePoints = d.routePoints := by
  unfold dwellExpiry
  split_ifs <;> rfl

theorem intervalTick_currentIndex_le (d : Driver) :
    d.currentIndex ≤ (intervalTick d).currentIndex := by
  simp only [intervalTick]
  split_ifs <;> simp

theorem step_currentIndex_le (d : Driver) (e : Event) :
    d.currentIndex ≤ (step d e).currentIndex := by
  cases e
  · exact intervalTick_currentIndex_le d
  · unfold step dwellExpiry
    split_ifs <;> simp

theorem run_append (d : Driver) (es fs : List Event) :
    run d (es ++ fs) = run (run d es) fs := by
  simp [run, List.foldl_append]

theorem run_currentIndex_le (d : Driver) (es : List Event) :
    d.currentIndex ≤ (run d es).currentIndex := by
  induction es generalizing d with
  | nil => simp [run]
  | cons e es ih =>
    have h1 := step_currentIndex_le d e
    have h2 := ih (step d e)
    simp only [run, List.foldl_cons] at h2 ⊢
    exact le_trans h1 h2

theorem pickupIndexOf_lt (r : List Point) (h : r ≠ []) :
    pickupIndexOf r < (r.length : Int) := by
  have hpos : 0 < r.length := List.length_pos.mpr h
  unfold pickupIndexOf
  have : r.length / 2 < r.length := Nat.div_lt_self hpos (by decide)
  exact_mod_cast this

theorem Driver.start_inv (routePoints : List Point) (delivery : Delivery) (startIndex : Int)
    (simStatus : Option SimStatus) (h : routePoints ≠ []) :
    (Driver.start routePoints delivery startIndex simStatus).Inv := by
  refine ⟨h, ?_, ?_, ?_⟩
  · intro _ hp
    simp only [Driver.start, Bool.or_eq_false_iff, decide_eq_false_iff_not, not_le, ge_iff_le]
      at hp
    exact hp.2
  · intro i hi
    simp [Driver.start, reportIndices] at hi
  · simp [Driver.start, reportIndices]

theorem intervalTick_inv (d : Driver) (h : d.Inv) : (intervalTick d).Inv := by
  obtain ⟨hne, hbelow, hbound, hsorted⟩ := h
  have hpl : d.pickupIndex < d.len := pickupIndexOf_lt d.routePoints hne
  simp only [intervalTick]
  split_ifs with h1 h2 h3 h4
  · exact ⟨hne, hbelow, hbound, hsorted⟩
  · obtain ⟨hs, hge, hpr⟩ := h2
    have hlt := hbelow hs hpr
    refine ⟨hne, ?_, ?_, ?_⟩
    · intro hc
      simp at hc
    · intro i hi
      simp only [reportIndices_append, reportIndices, List.mem_append, List.mem_singleton] at hi
      simp only [Driver.pickupIndex, Driver.len] at *
      rcases hi with hi | hi
      · have := hbound i hi
        omega
      · omega
    · simp only [reportIndices_append, reportIndices, List.pairwise_append]
      refine ⟨hsorted, by simp, ?_⟩
      intro a ha b hb
      simp only [List.mem_singleton] at hb
      have := hbound a ha
      simp only [Driver.pickupIndex, Driver.len] at *
      omega
  · obtain ⟨hs, hge⟩ := h3
    refine ⟨hne, ?_, ?_, ?_⟩
    · intro hc
      simp at hc
    · intro i hi
      simp only [reportIndices_append, reportIndices, List.mem_append, List.mem_singleton] at hi
      simp only [Driver.pickupIndex, Driver.len] at *
      rcases hi with hi | hi
      · have := hbound i hi
        omega
      · omega
    · simp only [reportIndices_append, reportIndices, List.pairwise_append]
      refine ⟨hsorted, by simp, ?_⟩
      intro a ha b hb
      simp only [List.mem_singleton] at hb
      have := hbound a ha
      simp only [Driver.pickupIndex, Driver.len] at *
      omega
  · refine ⟨hne, ?_, ?_, ?_⟩
    · intro hs hpr
      simp only [Driver.pickupIndex] at *
      have := hbelow hs hpr
      by_contra hcon
      exact h2 ⟨hs, by omega, hpr⟩
    · intro i hi
      simp only [reportIndices_append, reportIndices, List.mem_append, List.mem_singleton] at hi
      simp only [Driver.pickupIndex, Driver.len] at *
      rcases hi with hi | hi
      · have := hbound i hi
        omega
      · omega
    · simp only [reportIndices_append, reportIndices, List.pairwise_append]
      refine ⟨hsorted, by simp, ?_⟩
      intro a ha b hb
      simp only [List.mem_singleton] at hb
      have := hbound a ha
      omega
  · refine ⟨hne, ?_, ?_, hsorted⟩
    · intro hs hpr
      simp only [Driver.pickupIndex] at *
      by_contra hcon
      exact h2 ⟨hs, by omega, hpr⟩
    · intro i hi
      have := hbound i hi
      simp only [Driver.len] at *
      omega

theorem dwellExpiry_inv (d : Driver) (h : d.Inv) : (dwellExpiry d).Inv := by
  obtain ⟨hne, hbelow, hbound, hsorted⟩ := h
  unfold dwellExpiry
  split_ifs with h1
  · exact ⟨hne, hbelow, hbound, hsorted⟩
  · exact ⟨hne, fun hc => by simp at hc, hbound, hsorted⟩

theorem run_inv (d : Driver) (es : List Event) (h : d.Inv) : (run d es).Inv := by
  induction es generalizing d with
  | nil => simpa [run] using h
  | cons e es ih =>
    have hs : (step d e).Inv := by
      cases e
      · exact intervalTick_inv d h
      · exact dwellExpiry_inv d h
    simpa [run] using ih (step d e) hs

theorem intervalTick_pastPickup (d : Driver) (h : d.PastPickup) : (intervalTick d).PastPickup := by
  obtain ⟨hr, hs, hl⟩ := h
  simp only [intervalTick]
  split_ifs with h1 h2 h3 h4
  · exact ⟨hr, hs, hl⟩
  · simp [hr] at h2
  · refine ⟨hr, by simp, ?_⟩
    simpa [reportStatuses_append, reportStatuses] using hl
  · refine ⟨hr, hs, ?_⟩
    simp only [reportStatuses_append, reportStatuses, List.mem_append, List.mem_singleton,
      not_or]
    exact ⟨hl, fun hc => hs hc.symm⟩
  · exact ⟨hr, hs, hl⟩

theorem dwellExpiry_pastPickup (d : Driver) (h : d.PastPickup) : (dwellExpiry d).PastPickup := by
  obtain ⟨hr, hs, hl⟩ := h
  unfold dwellExpiry
  split_ifs
  · exact ⟨hr, hs, hl⟩
  · exact ⟨hr, by simp, hl⟩

theorem run_pastPickup (d : Driver) (es : List Event) (h : d.PastPickup) :
    (run d es).PastPickup := by
  induction es generalizing d with
  | nil => simpa [run] using h
  | cons e es ih =>
    have hs : (step d e).PastPickup := by
      cases e
      · exact intervalTick_pastPickup d h
      · exact dwellExpiry_pastPickup d h
    simpa [run] using ih (step d e) hs

/-- A completed driver whose counter has left the route is not changed by a
tick, except for the counter. -/
theorem intervalTick_completed (d : Driver) (hs : d.statusRef = SimStatus.completed)
    (hc : d.len ≤ d.currentIndex) :
    intervalTick d = { d with currentIndex := d.currentIndex + 1 } := by
  simp only [intervalTick, hs]
  have h3 : ¬ d.currentIndex + 1 < d.len := by omega
  simp [h3]

theorem ticks_completed (n : Nat) (d : Driver) (hs : d.statusRef = SimStatus.completed)
    (hc : d.len ≤ d.currentIndex) :
    ticks n d = { d with currentIndex := d.currentIndex + n } := by
  induction n generalizing d with
  | zero => simp [ticks]
  | succ n ih =>
    have hstep := ih { d with currentIndex := d.currentIndex + 1 } hs
      (by simp only [Driver.len] at *; omega)
    rw [ticks, intervalTick_completed d hs hc, hstep]
    simp only [Driver.mk.injEq, true_and, and_true]
    push_cast
    ring

/-- A driver waiting at the pickup without a pending dwell timer is left
unchanged by every event. -/
theorem run_at_pickup_no_timer (d : Driver) (es : List Event)
    (hs : d.statusRef = SimStatus.at_pickup) (ht : d.dwellTimers = 0) : run d es = d := by
  induction es with
  | nil => rfl
  | cons e es ih =>
    have hstep : step d e = d := by
      cases e
      · simp [step, intervalTick, hs]
      · simp [step, dwellExpiry, ht]
    simp only [run, List.foldl_cons, hstep] at ih ⊢
    exact ih

theorem Component.initial_locked : Component.initial.Locked :=
  ⟨fun _ => rfl, fun t ht => by simp [Component.initial] at ht, by simp [Component.initial]⟩

theorem startSimulationFromIndex_locked (c : Component) (delivery : Option Delivery)
    (startIndex : Int) (simStatus : Option SimStatus) (h : c.Locked) :
    (startSimulationFromIndex c c delivery startIndex simStatus).Locked := by
  unfold startSimulationFromIndex
  cases delivery with
  | none => exact h
  | some dl =>
    simp only
    split_ifs with hg
    · exact h
    · have hidle : c.intervals = [] := h.idle (by
        cases hsim : c.isSimulating
        · rfl
        · exact absurd (Or.inr hsim) hg)
      refine ⟨fun hc => by simp at hc, ?_, ?_⟩
      · intro t ht
        simp only [hidle, List.nil_append, List.mem_singleton] at ht
        simp [ht]
      · simp [hidle]

/-- A start made by a closure that captured `isSimulating = true` changes
nothing. -/
theorem startSimulationFromIndex_captured_flag (render live : Component)
    (delivery : Option Delivery) (k : Int) (s : Option SimStatus)
    (h : render.isSimulating = true) :
    startSimulationFromIndex render live delivery k s = live ∧
      startSimulation render live delivery k = live := by
  unfold startSimulation startSimulationFromIndex
  cases delivery <;> simp [h]

theorem stopSimulation_locked (c : Component) (h : c.Locked) : (stopSimulation c).Locked := by
  unfold stopSimulation
  cases hr : c.simulationRef with
  | none =>
    have hnil : c.intervals = [] := by
      cases hi : c.intervals with
      | nil => rfl
      | cons t ts =>
        have := h.stored t (by simp [hi])
        rw [hr] at this
        exact absurd this (by simp)
    exact ⟨fun _ => hnil, fun t ht => by simp [hnil] at ht, by simp [hnil]⟩
  | some hd =>
    have hnil : (c.intervals.filter fun t => decide (t.handle ≠ hd)) = [] := by
      rw [List.filter_eq_nil_iff]
      intro t ht
      have := h.stored t ht
      rw [hr] at this
      simp only [Option.some.injEq] at this
      simp [this]
    refine ⟨fun _ => hnil, fun t ht => ?_, ?_⟩
    · have ht2 : t ∈ (c.intervals.filter fun t => decide (t.handle ≠ hd)) := ht
      rw [hnil] at ht2
      exact absurd ht2 (List.not_mem_nil t)
    · show (c.intervals.filter fun t => decide (t.handle ≠ hd)).length ≤ 1
      rw [hnil]
      exact Nat.zero_le 1

/-- A call made by a closure of a render that shows the live state keeps the
lock invariant. -/
theorem Mounted.call_locked (m : Mounted) (c : Call) (hsync : m.render = m.live)
    (h : m.live.Locked) : (m.call c).live.Locked := by
  cases c with
  | startSimulationFromIndex dl i s =>
    simp only [Mounted.call, hsync]
    exact startSimulationFromIndex_locked m.live dl i s h
  | startSimulation dl i =>
    simp only [Mounted.call, hsync, startSimulation]
    exact startSimulationFromIndex_locked m.live dl i _ h
  | stopSimulation => exact stopSimulation_locked m.live h
  | setRoutePoints r => exact ⟨h.idle, h.stored, h.single⟩

theorem ticks_succ_last (n : Nat) (d : Driver) :
    ticks (n + 1) d = intervalTick (ticks n d) := by
  induction n generalizing d with
  | zero => rfl
  | succ n ih => rw [ticks, ih (intervalTick d), ticks]

/-- A tick at the pickup is the early return. -/
theorem intervalTick_at_pickup (d : Driver) (hs : d.statusRef = SimStatus.at_pickup) :
    intervalTick d = d := by
  simp [intervalTick, hs]

theorem ticks_at_pickup (n : Nat) (d : Driver) (hs : d.statusRef = SimStatus.at_pickup) :
    ticks n d = d := by
  induction n with
  | zero => rfl
  | succ n ih => rw [ticks, intervalTick_at_pickup d hs, ih]

/-- A `going_to_pickup` tick whose counter reaches `pickupIndex` for the first
time: the arrival branch. -/
theorem intervalTick_arrive (d : Driver) (hs : d.statusRef = SimStatus.going_to_pickup)
    (hp : d.pickupReached = false) (hge : d.pickupIndex ≤ d.currentIndex + 1) :
    intervalTick d =
      { d with
        statusRef := SimStatus.at_pickup
        pickupReached := true
        currentIndex := d.currentIndex + 1
        currentRouteIndex := d.pickupIndex
        dwellTimers := d.dwellTimers + 1
        log := d.log ++
          [Effect.sendLocationViaWebSocket (getPoint d.routePoints d.pickupIndex)
              d.delivery.delivery_id d.pickupIndex SimStatus.at_pickup,
           Effect.handleUpdateStatus DeliveryStatus.in_progress] } := by
  simp [intervalTick, hs, hp, hge]

/-- A `going_to_pickup` tick that stays below `pickupIndex`: a plain report. -/
theorem intervalTick_to_pickup (d : Driver) (hs : d.statusRef = SimStatus.going_to_pickup)
    (hlt : d.currentIndex + 1 < d.pickupIndex) (hl : d.pickupIndex ≤ d.len) :
    intervalTick d =
      { d with
        currentIndex := d.currentIndex + 1
        currentRouteIndex := d.currentIndex + 1
        log := d.log ++
          [Effect.sendLocationViaWebSocket (getPoint d.routePoints (d.currentIndex + 1))
              d.delivery.delivery_id (d.currentIndex + 1) SimStatus.going_to_pickup] } := by
  have h1 : ¬ d.pickupIndex ≤ d.currentIndex + 1 := by omega
  have h2 : d.currentIndex + 1 < d.len := by omega
  simp [intervalTick, hs, h1, h2]

/-- A `going_to_delivery` tick inside the route: a plain report. -/
theorem intervalTick_to_delivery (d : Driver) (hs : d.statusRef = SimStatus.going_to_delivery)
    (hlt : d.currentIndex + 1 < d.len) :
    intervalTick d =
      { d with
        currentIndex := d.currentIndex + 1
        currentRouteIndex := d.currentIndex + 1
        log := d.log ++
          [Effect.sendLocationViaWebSocket (getPoint d.routePoints (d.currentIndex + 1))
              d.delivery.delivery_id (d.currentIndex + 1) SimStatus.going_to_delivery] } := by
  have h1 : ¬ d.len ≤ d.currentIndex + 1 := by omega
  simp [intervalTick, hs, h1, hlt]

/-- A `going_to_delivery` tick whose counter leaves the route: completion. -/
theorem intervalTick_complete (d : Driver) (hs : d.statusRef = SimStatus.going_to_delivery)
    (hge : d.len ≤ d.currentIndex + 1) :
    intervalTick d =
      { d with
        statusRef := SimStatus.completed
        currentIndex := d.currentIndex + 1
        currentRouteIndex := d.len - 1
        log := d.log ++
          [Effect.sendLocationViaWebSocket (getPoint d.routePoints (d.len - 1))
              d.delivery.delivery_id (d.len - 1) SimStatus.completed,
           Effect.handleUpdateStatus DeliveryStatus.completed] } := by
  simp [intervalTick, hs, hge]

theorem ticks_to_pickup (n : Nat) (d : Driver) (hs : d.statusRef = SimStatus.going_to_pickup)
    (hlt : d.currentIndex + n < d.pickupIndex) (hl : d.pickupIndex ≤ d.len) :
    Driver.Advanced d (ticks n d) n := by
  induction n with
  | zero => exact ⟨rfl, rfl, rfl, rfl, rfl, by simp [ticks]⟩
  | succ n ih =>
    have hn : d.currentIndex + n < d.pickupIndex := by push_cast at hlt; omega
    obtain ⟨h1, h2, h3, h4, h5, h6⟩ := ih hn
    have hpi : (ticks n d).pickupIndex = d.pickupIndex := by simp [Driver.pickupIndex, h1]
    have hln : (ticks n d).len = d.len := by simp [Driver.len, h1]
    rw [ticks_succ_last, intervalTick_to_pickup (ticks n d) (h3.trans hs)
      (by rw [hpi, h6]; push_cast at hlt; omega) (by rw [hpi, hln]; exact hl)]
    exact ⟨h1, h2, h3, h4, h5, by simp only [h6]; push_cast; ring⟩

theorem ticks_to_delivery (n : Nat) (d : Driver) (hs : d.statusRef = SimStatus.going_to_delivery)
    (hlt : d.currentIndex + n < d.len) :
    Driver.Advanced d (ticks n d) n := by
  induction n with
  | zero => exact ⟨rfl, rfl, rfl, rfl, rfl, by simp [ticks]⟩
  | succ n ih =>
    have hn : d.currentIndex + n < d.len := by push_cast at hlt; omega
    obtain ⟨h1, h2, h3, h4, h5, h6⟩ := ih hn
    have hln : (ticks n d).len = d.len := by simp [Driver.len, h1]
    rw [ticks_succ_last, intervalTick_to_delivery (ticks n d) (h3.trans hs)
      (by rw [hln, h6]; push_cast at hlt; omega)]
    exact ⟨h1, h2, h3, h4, h5, by simp only [h6]; push_cast; ring⟩

theorem Driver.start_fresh (routePoints : List Point) (delivery : Delivery) (startIndex : Int)
    (simStatus : Option SimStatus) :
    (Driver.start routePoints delivery startIndex simStatus).Fresh := by
  intro hs hlt
  simp only [Driver.start, Driver.pickupIndex] at hs hlt ⊢
  have h3 : ¬ startIndex ≥ pickupIndexOf routePoints := by omega
  cases simStatus with
  | none => simp [h3]
  | some st =>
    simp only [Option.getD_some] at hs
    simp [hs, h3]

theorem intervalTick_fresh (d : Driver) (h : d.Fresh) : (intervalTick d).Fresh := by
  unfold Driver.Fresh at h ⊢
  simp only [intervalTick]
  split_ifs with h1 h2 h3 h4
  · exact h
  · intro hc
    simp at hc
  · intro hc
    simp at hc
  · intro hs hlt
    simp only [Driver.pickupIndex] at *
    exact h hs (by omega)
  · intro hs hlt
    simp only [Driver.pickupIndex] at *
    exact h hs (by omega)

theorem run_fresh (d : Driver) (es : List Event) (h : d.Fresh) : (run d es).Fresh := by
  induction es generalizing d with
  | nil => simpa [run] using h
  | cons e es ih =>
    have hs : (step d e).Fresh := by
      cases e
      · exact intervalTick_fresh d h
      · unfold step dwellExpiry Driver.Fresh
        split_ifs
        · exact h
        · intro hc
          simp at hc
    simpa [run] using ih (step d e) hs

theorem run_routePoints (d : Driver) (es : List Event) :
    (run d es).routePoints = d.routePoints := by
  induction es generalizing d with
  | nil => rfl
  | cons e es ih =>
    have hs : (step d e).routePoints = d.routePoints := by
      cases e
      · exact intervalTick_routePoints d
      · exact dwellExpiry_routePoints d
    simp only [run, List.foldl_cons] at ih ⊢
    rw [ih (step d e), hs]

theorem getPoint_isSome (r : List Point) (i : Int) (h0 : 0 ≤ i) (hlt : i < (r.length : Int)) :
    (getPoint r i).isSome = true := by
  have hn : i.toNat < r.length := by omega
  simp only [getPoint, h0, if_true, List.get?_eq_getElem?]
  rw [List.getElem?_eq_getElem hn]
  rfl

theorem Driver.start_located (routePoints : List Point) (delivery : Delivery) (startIndex : Int)
    (simStatus : Option SimStatus) (hne : routePoints ≠ []) (h0 : 0 ≤ startIndex) :
    (Driver.start routePoints delivery startIndex simStatus).Located :=
  ⟨hne, h0, fun e he => by simp [Driver.start] at he⟩

theorem intervalTick_located (d : Driver) (h : d.Located) : (intervalTick d).Located := by
  obtain ⟨hne, hc, hrep⟩ := h
  have hpl : d.pickupIndex < d.len := pickupIndexOf_lt d.routePoints hne
  have hp0 : 0 ≤ d.pickupIndex := by
    simp only [Driver.pickupIndex, pickupIndexOf]
    exact Int.ofNat_nonneg _
  have hlen : 0 < d.len := by
    have : 0 < d.routePoints.length := List.length_pos.mpr hne
    simp only [Driver.len]
    exact_mod_cast this
  have hnew : ∀ (i : Int) (id : Nat) (s : SimStatus), 0 ≤ i → i < d.len →
      Effect.Located d.routePoints
        (Effect.sendLocationViaWebSocket (getPoint d.routePoints i) id i s) :=
    fun i id s h0 hlt => ⟨h0, hlt, rfl, getPoint_isSome d.routePoints i h0 hlt⟩
  simp only [intervalTick]
  split_ifs with h1 h2 h3 h4
  · exact ⟨hne, hc, hrep⟩
  · refine ⟨hne, by show 0 ≤ d.currentIndex + 1; omega, ?_⟩
    intro e he
    simp only [List.mem_append, List.mem_cons, List.mem_singleton, List.not_mem_nil,
      or_false] at he
    rcases he with he | he | he
    · exact hrep e he
    · rw [he]; exact hnew _ _ _ hp0 hpl
    · rw [he]; trivial
  · refine ⟨hne, by show 0 ≤ d.currentIndex + 1; omega, ?_⟩
    intro e he
    simp only [List.mem_append, List.mem_cons, List.mem_singleton, List.not_mem_nil,
      or_false] at he
    rcases he with he | he | he
    · exact hrep e he
    · rw [he]; exact hnew _ _ _ (by omega) (by omega)
    · rw [he]; trivial
  · refine ⟨hne, by show 0 ≤ d.currentIndex + 1; omega, ?_⟩
    intro e he
    simp only [List.mem_append, List.mem_singleton] at he
    rcases he with he | he
    · exact hrep e he
    · rw [he]; exact hnew _ _ _ (by omega) h4
  · exact ⟨hne, by show 0 ≤ d.currentIndex + 1; omega, hrep⟩

theorem run_located (d : Driver) (es : List Event) (h : d.Located) : (run d es).Located := by
  induction es generalizing d with
  | nil => simpa [run] using h
  | cons e es ih =>
    have hs : (step d e).Located := by
      cases e
      · exact intervalTick_located d h
      · unfold step dwellExpiry
        split_ifs
        · exact h
        · exact ⟨h.nonempty, h.counter, h.reports⟩
    simpa [run] using ih (step d e) hs

theorem Driver.start_stepwise (routePoints : List Point) (delivery : Delivery) (k : Int)
    (simStatus : Option SimStatus) : (Driver.start routePoints delivery k simStatus).Stepwise k := by
  refine ⟨?_, ?_, ?_, ?_, ?_⟩
  · simp [Driver.start, reportIndices]
  · intro a ha
    simp [Driver.start, reportIndices] at ha
  · intro i h1 h2 _
    simp only [Driver.start] at h2
    omega
  · intro h
    simp [Driver.start] at h
  · intro _
    exact Or.inl ⟨rfl, rfl⟩

/-- A tick that advances the counter and reports the index `x`. -/
theorem Driver.Stepwise.report {k : Int} {d e : Driver} (x : Int) (h : d.Stepwise k)
    (hlen : e.len = d.len) (hcur : e.currentIndex = d.currentIndex + 1)
    (hlog : reportIndices e.log = reportIndices d.log ++ [x])
    (hfin : Effect.handleUpdateStatus DeliveryStatus.completed ∈ e.log →
      d.len ≤ d.currentIndex + 1)
    (hrel : ∀ a ∈ (reportIndices d.log).getLast?, a ≤ x ∧ x ≤ a + 1)
    (hx : x = d.currentIndex + 1 ∨ (x = d.len - 1 ∧ d.len ≤ d.currentIndex + 1))
    (hfirst : k + 1 < d.len → reportIndices d.log = [] → d.currentIndex = k → x = k + 1) :
    e.Stepwise k := by
  obtain ⟨hchain, _, hcov, _, hfst⟩ := h
  refine ⟨?_, ?_, ?_, ?_, ?_⟩
  · rw [hlog]
    refine List.Chain'.append hchain (List.chain'_singleton x) ?_
    intro a ha y hy
    simp only [List.head?_cons, Option.mem_def, Option.some.injEq] at hy
    rw [← hy]
    exact hrel a ha
  · intro a ha
    rw [hlog, List.getLast?_concat] at ha
    simp only [Option.mem_def, Option.some.injEq] at ha
    rw [← ha, hlen, hcur]
    exact hx
  · intro i h1 h2 h3
    rw [hlog, List.mem_append, List.mem_singleton]
    rw [hcur] at h2
    rw [hlen] at h3
    by_cases hi : i ≤ d.currentIndex
    · exact Or.inl (hcov i h1 hi h3)
    · right
      rcases hx with hx | hx <;> omega
  · intro hc
    rw [hlen, hcur]
    exact hfin hc
  · intro hk
    rw [hlen] at hk
    right
    rw [hlog]
    rcases hfst hk with ⟨hnil, hck⟩ | hhead
    · rw [hnil, hfirst hk hnil hck]
      rfl
    · rw [List.head?_append, hhead]
      rfl

/-- A tick that advances the counter beyond the route without a report. -/
theorem Driver.Stepwise.skip {k : Int} {d e : Driver} (h : d.Stepwise k)
    (hlen : e.len = d.len) (hcur : e.currentIndex = d.currentIndex + 1)
    (hlog : reportIndices e.log = reportIndices d.log)
    (hfin : Effect.handleUpdateStatus DeliveryStatus.completed ∈ e.log →
      Effect.handleUpdateStatus DeliveryStatus.completed ∈ d.log)
    (hout : d.len ≤ d.currentIndex + 1)
    (hbound : ∀ a ∈ reportIndices d.log, a ≤ d.len - 1) : e.Stepwise k := by
  obtain ⟨hchain, hlast, hcov, hdone, hfst⟩ := h
  refine ⟨by rw [hlog]; exact hchain, ?_, ?_, ?_, ?_⟩
  · intro a ha
    rw [hlog] at ha
    have hb := hbound a (List.mem_of_mem_getLast? ha)
    rw [hlen, hcur]
    rcases hlast a ha with h1 | h1
    · right
      omega
    · right
      omega
  · intro i h1 h2 h3
    rw [hlog]
    rw [hcur] at h2
    rw [hlen] at h3
    exact hcov i h1 (by omega) h3
  · intro hc
    rw [hlen, hcur]
    have := hdone (hfin hc)
    omega
  · intro hk
    rw [hlen] at hk
    rw [hlog]
    rcases hfst hk with ⟨_, hck⟩ | hhead
    · omega
    · exact Or.inr hhead

theorem intervalTick_stepwise (k : Int) (d : Driver) (hinv : d.Inv) (h : d.Stepwise k) :
    (intervalTick d).Stepwise k := by
  have hpl : d.pickupIndex < d.len := pickupIndexOf_lt d.routePoints hinv.nonempty
  have hbound : ∀ a ∈ reportIndices d.log, a ≤ d.len - 1 := fun a ha => (hinv.bound a ha).2
  have hlast := h.last
  have hdone := h.finished
  by_cases h1 : d.statusRef = SimStatus.at_pickup
  · rw [intervalTick_at_pickup d h1]
    exact h
  by_cases h2 : d.statusRef = SimStatus.going_to_pickup ∧ d.pickupIndex ≤ d.currentIndex + 1
      ∧ d.pickupReached = false
  · obtain ⟨hs, hge, hpr⟩ := h2
    have hlt := hinv.below hs hpr
    rw [intervalTick_arrive d hs hpr hge]
    refine Driver.Stepwise.report d.pickupIndex h rfl rfl ?_ ?_ ?_ ?_ ?_
    · simp [reportIndices_append, reportIndices]
    · intro hc
      simp only [List.mem_append, List.mem_cons, List.mem_singleton, List.not_mem_nil,
        or_false] at hc
      rcases hc with hc | hc | hc
      · have := hdone hc
        omega
      · cases hc
      · cases hc
    · intro a ha
      rcases hlast a ha with h3 | h3 <;> omega
    · left
      omega
    · intro _ _ hck
      omega
  by_cases h3 : d.statusRef = SimStatus.going_to_delivery ∧ d.len ≤ d.currentIndex + 1
  · obtain ⟨hs, hge⟩ := h3
    rw [intervalTick_complete d hs hge]
    refine Driver.Stepwise.report (d.len - 1) h rfl rfl ?_ ?_ ?_ ?_ ?_
    · simp [reportIndices_append, reportIndices]
    · intro _
      exact hge
    · intro a ha
      have hb := hbound a (List.mem_of_mem_getLast? ha)
      rcases hlast a ha with h4 | h4 <;> omega
    · right
      exact ⟨rfl, hge⟩
    · intro hk _ hck
      omega
  by_cases h4 : d.currentIndex + 1 < d.len
  · have hstep : intervalTick d =
        { d with
          currentIndex := d.currentIndex + 1
          currentRouteIndex := d.currentIndex + 1
          log := d.log ++
            [Effect.sendLocationViaWebSocket (getPoint d.routePoints (d.currentIndex + 1))
                d.delivery.delivery_id (d.currentIndex + 1) d.statusRef] } := by
      simp only [intervalTick, h1, if_false]
      rw [if_neg (by simpa using h2), if_neg (by simpa using h3), if_pos h4]
    rw [hstep]
    refine Driver.Stepwise.report (d.currentIndex + 1) h rfl rfl ?_ ?_ ?_ ?_ ?_
    · simp [reportIndices_append, reportIndices]
    · intro hc
      simp only [List.mem_append, List.mem_singleton] at hc
      rcases hc with hc | hc
      · have := hdone hc
        omega
      · cases hc
    · intro a ha
      rcases hlast a ha with h5 | h5 <;> omega
    · left
      rfl
    · intro _ _ hck
      omega
  · have hstep : intervalTick d = { d with currentIndex := d.currentIndex + 1 } := by
      simp only [intervalTick, h1, if_false]
      rw [if_neg (by simpa using h2), if_neg (by simpa using h3), if_neg h4]
    rw [hstep]
    exact Driver.Stepwise.skip h rfl rfl rfl (fun hc => hc) (by omega) hbound

theorem run_stepwise (k : Int) (d : Driver) (es : List Event) (hinv : d.Inv)
    (h : d.Stepwise k) : (run d es).Stepwise k := by
  induction es generalizing d with
  | nil => simpa [run] using h
  | cons e es ih =>
    have hi : (step d e).Inv := by
      cases e
      · exact intervalTick_inv d hinv
      · exact dwellExpiry_inv d hinv
    have hs : (step d e).Stepwise k := by
      cases e
      · exact intervalTick_stepwise k d hinv h
      · unfold step dwellExpiry
        split_ifs
        · exact h
        · exact ⟨h.chain, h.last, h.covered, h.finished, h.first⟩
    simpa [run] using ih (step d e) hi hs

theorem intervalTick_status_completed (d : Driver)
    (h : d.statusRef = SimStatus.completed) : (intervalTick d).statusRef = SimStatus.completed := by
  simp only [intervalTick, h]
  split_ifs <;> simp_all

theorem ticks_status_completed (n : Nat) (d : Driver)
    (h : d.statusRef = SimStatus.completed) : (ticks n d).statusRef = SimStatus.completed := by
  induction n generalizing d with
  | zero => exact h
  | succ n ih => exact ih (intervalTick d) (intervalTick_status_completed d h)

theorem intervalTick_passed (d : Driver) (h : d.Passed) :
    (intervalTick d).Passed ∧
      (d.len ≤ d.currentIndex → (intervalTick d).log = d.log) ∧
      d.currentIndex ≤ (intervalTick d).currentIndex := by
  obtain ⟨hs, hr, ht⟩ := h
  simp only [intervalTick]
  split_ifs with h1 h2 h3 h4
  · rw [hs] at h1
    cases h1
  · rw [hr] at h2
    exact absurd h2.2.2 (by simp)
  · rw [hs] at h3
    exact absurd h3.1 (by simp)
  · refine ⟨⟨hs, hr, ht⟩, ?_, by simp⟩
    intro hl
    omega
  · exact ⟨⟨hs, hr, ht⟩, fun _ => rfl, by simp⟩

theorem dwellExpiry_passed (d : Driver) (h : d.Passed) : dwellExpiry d = d := by
  simp [dwellExpiry, h.timers]

theorem run_passed (d : Driver) (es : List Event) (h : d.Passed) :
    (run d es).Passed ∧ (d.len ≤ d.currentIndex → (run d es).log = d.log) := by
  induction es generalizing d with
  | nil => exact ⟨h, fun _ => rfl⟩
  | cons e es ih =>
    cases e with
    | tick =>
      obtain ⟨hp, hlog, hle⟩ := intervalTick_passed d h
      obtain ⟨hp2, hlog2⟩ := ih (intervalTick d) hp
      refine ⟨hp2, fun hl => ?_⟩
      have hlen : (intervalTick d).len = d.len := by simp [Driver.len, intervalTick_routePoints]
      have := hlog2 (by rw [hlen]; omega)
      simp only [run, List.foldl_cons, step] at this ⊢
      rw [this, hlog hl]
    | dwell =>
      have hd := dwellExpiry_passed d h
      have := ih d h
      simp only [run, List.foldl_cons, step, hd] at this ⊢
      exact this

/-- A driver of `RiderDeviceNew` waiting at the pickup without a pending dwell
timer is left unchanged by every event. -/
theorem RiderDeviceNew.stuck_without_timer (d : RiderDeviceNew.Driver)
    (es : List RiderDeviceNew.Event) (hs : d.statusRef = SimStatus.at_pickup)
    (ht : d.dwellTimers = 0) : RiderDeviceNew.run d es = d := by
  induction es with
  | nil => rfl
  | cons e es ih =>
    have hstep : RiderDeviceNew.step d e = d := by
      cases e
      · simp [RiderDeviceNew.step, RiderDeviceNew.intervalTick, hs]
      · simp [RiderDeviceNew.step, RiderDeviceNew.dwellExpiry, ht]
    simp only [RiderDeviceNew.run, List.foldl_cons, hstep] at ih ⊢
    exact ih

theorem calculateDirectRoute_length (start finish : Point) (numPoints : Nat) :
    (calculateDirectRoute start finish numPoints).length = numPoints + 1 := by
  simp [calculateDirectRoute]

theorem calculateDirectRoute_get (start finish : Point) (numPoints i : Nat)
    (h : i ≤ numPoints) :
    (calculateDirectRoute start finish numPoints).get? i =
      some { lat := start.lat + (finish.lat - start.lat) * ((i : ℚ) / (numPoints : ℚ))
             lng := start.lng + (finish.lng - start.lng) * ((i : ℚ) / (numPoints : ℚ)) } := by
  have hr : (List.range (numPoints + 1))[i]? = some i := by
    rw [List.getElem?_range (by omega)]
  rw [calculateDirectRoute, List.get?_eq_getElem?, List.getElem?_map, hr]
  rfl

theorem calculateDirectRoute_first (start finish : Point) (numPoints : Nat) :
    (calculateDirectRoute start finish numPoints).get? 0 = some start := by
  rw [calculateDirectRoute_get start finish numPoints 0 (Nat.zero_le _)]
  cases start
  simp

theorem calculateDirectRoute_last (start finish : Point) (numPoints : Nat)
    (h : 1 ≤ numPoints) :
    (calculateDirectRoute start finish numPoints).get? numPoints = some finish := by
  have hn : (numPoints : ℚ) ≠ 0 := by
    have : 0 < numPoints := h
    exact_mod_cast this.ne'
  rw [calculateDirectRoute_get start finish numPoints numPoints (le_refl _), div_self hn]
  cases finish
  simp

theorem toString16_draw (r : Fin 16) : toString16 r.val = [Nat.digitChar r.val] := by
  revert r
  decide

theorem toString16_variant (r : Fin 16) :
    toString16 ((r.val &&& 3) ||| 8) = [Nat.digitChar ((r.val &&& 3) ||| 8)] := by
  revert r
  decide

theorem isLowerHex_draw (r : Fin 16) : isLowerHex (Nat.digitChar r.val) = true := by
  revert r
  decide

theorem isLowerHex_variant (r : Fin 16) :
    isLowerHex (Nat.digitChar ((r.val &&& 3) ||| 8)) = true := by
  revert r
  decide

theorem variant_digit (r : Fin 16) :
    Nat.digitChar ((r.val &&& 3) ||| 8) ∈ ['8', '9', 'a', 'b'] := by
  revert r
  decide

/-- The 36 characters of a generated identifier, written out. -/
theorem generateUUID_data (draws : Nat → Fin 16) :
    (generateUUID draws).data =
      [Nat.digitChar (draws 0).val, Nat.digitChar (draws 1).val, Nat.digitChar (draws 2).val,
       Nat.digitChar (draws 3).val, Nat.digitChar (draws 4).val, Nat.digitChar (draws 5).val,
       Nat.digitChar (draws 6).val, Nat.digitChar (draws 7).val, '-',
       Nat.digitChar (draws 8).val, Nat.digitChar (draws 9).val, Nat.digitChar (draws 10).val,
       Nat.digitChar (draws 11).val, '-', '4',
       Nat.digitChar (draws 12).val, Nat.digitChar (draws 13).val, Nat.digitChar (draws 14).val,
       '-', Nat.digitChar (((draws 15).val &&& 3) ||| 8),
       Nat.digitChar (draws 16).val, Nat.digitChar (draws 17).val, Nat.digitChar (draws 18).val,
       '-', Nat.digitChar (draws 19).val, Nat.digitChar (draws 20).val,
       Nat.digitChar (draws 21).val, Nat.digitChar (draws 22).val, Nat.digitChar (draws 23).val,
       Nat.digitChar (draws 24).val, Nat.digitChar (draws 25).val, Nat.digitChar (draws 26).val,
       Nat.digitChar (draws 27).val, Nat.digitChar (draws 28).val, Nat.digitChar (draws 29).val,
       Nat.digitChar (draws 30).val] := by
  simp only [generateUUID, uuidTemplate, String.toList, replaceXY]
  simp [toString16_draw, toString16_variant]

/-- A value with eight decimals and fewer than eleven digits fits the field. -/
theorem fitsDecimal_of_scaled (m : Int) (hm : |m| < (10 : Int) ^ 10) :
    fitsDecimal 10 8 ((m : ℚ) / (10 : ℚ) ^ 8) := by
  unfold fitsDecimal
  have h : (m : ℚ) / (10 : ℚ) ^ 8 * (10 : ℚ) ^ 8 = ((m : Int) : ℚ) := by
    field_simp
  rw [h, Rat.den_intCast, Rat.num_intCast]
  exact ⟨rfl, hm⟩

/-- For a latitude the rounded coordinate fits a decimal field of 10 digits
with 8 decimals. -/
theorem roundCoordinate_fits_latitude (coord : ℚ) (h1 : -90 ≤ coord) (h2 : coord ≤ 90) :
    fitsDecimal 10 8 (roundCoordinate coord) := by
  unfold roundCoordinate toFixed
  split_ifs with hneg
  · have hb : ⌊(-coord) * (10 : ℚ) ^ 8 + 1 / 2⌋ ≤ 9000000000 := by
      apply Int.le_of_lt_add_one
      rw [Int.floor_lt]
      push_cast
      nlinarith
    have hb0 : 0 ≤ ⌊(-coord) * (10 : ℚ) ^ 8 + 1 / 2⌋ := by
      apply Int.floor_nonneg.mpr
      nlinarith
    have := fitsDecimal_of_scaled (-⌊(-coord) * (10 : ℚ) ^ 8 + 1 / 2⌋)
      (by rw [abs_neg, abs_of_nonneg hb0]; omega)
    push_cast at this
    exact this
  · push_neg at hneg
    have hb : ⌊coord * (10 : ℚ) ^ 8 + 1 / 2⌋ ≤ 9000000000 := by
      apply Int.le_of_lt_add_one
      rw [Int.floor_lt]
      push_cast
      nlinarith
    have hb0 : 0 ≤ ⌊coord * (10 : ℚ) ^ 8 + 1 / 2⌋ := by
      apply Int.floor_nonneg.mpr
      nlinarith
    exact fitsDecimal_of_scaled _ (by rw [abs_of_nonneg hb0]; omega)

/-! ## The claims -/

/-- C1. For every non-empty route, start index and start status, and every
sequence of interval ticks and dwell expiries, the tick counter never decreases
along the run and the route indices of the successive location reports are
non-decreasing. -/
theorem route_index_monotone (routePoints : List Point) (delivery : Delivery)
    (startIndex : Int) (simStatus : Option SimStatus) (events later : List Event)
    (h : routePoints ≠ []) :
    (run (Driver.start routePoints delivery startIndex simStatus) events).currentIndex ≤
      (run (Driver.start routePoints delivery startIndex simStatus) (events ++ later)).currentIndex ∧
    (reportIndices
      (run (Driver.start routePoints delivery startIndex simStatus) events).log).Pairwise
        (· ≤ ·) := by
  refine ⟨?_, ?_⟩
  · rw [run_append]
    exact run_currentIndex_le _ _
  · exact (run_inv _ events (Driver.start_inv routePoints delivery startIndex simStatus h)).sorted

/-- Witness of C1: a route of three waypoints, start at index 0 without a saved
status, a tick, a dwell expiry and a further tick. -/
theorem route_index_monotone_witness :
    ([⟨0, 0⟩, ⟨1, 1⟩, ⟨2, 2⟩] : List Point) ≠ [] ∧
    (run (Driver.start [⟨0, 0⟩, ⟨1, 1⟩, ⟨2, 2⟩] ⟨7⟩ 0 none)
        [Event.tick, Event.dwell]).currentIndex ≤
      (run (Driver.start [⟨0, 0⟩, ⟨1, 1⟩, ⟨2, 2⟩] ⟨7⟩ 0 none)
        ([Event.tick, Event.dwell] ++ [Event.tick])).currentIndex ∧
    (reportIndices
      (run (Driver.start [⟨0, 0⟩, ⟨1, 1⟩, ⟨2, 2⟩] ⟨7⟩ 0 none)
        [Event.tick, Event.dwell]).log).Pairwise (· ≤ ·) :=
  ⟨by simp, route_index_monotone [⟨0, 0⟩, ⟨1, 1⟩, ⟨2, 2⟩] ⟨7⟩ 0 none
    [Event.tick, Event.dwell] [Event.tick] (by simp)⟩

/-- C2. For every route and every start index `k ≥ pickupIndex`, a driver
started with saved status `going_to_pickup` or `going_to_delivery` never has
status `at_pickup` and never reports status `at_pickup`, after any sequence
of ticks and dwell expiries. -/
theorem resume_past_pickup_never_at_pickup (routePoints : List Point) (delivery : Delivery)
    (k : Int) (simStatus : SimStatus) (events : List Event)
    (hs : simStatus = SimStatus.going_to_pickup ∨ simStatus = SimStatus.going_to_delivery)
    (hk : k ≥ pickupIndexOf routePoints) :
    (run (Driver.start routePoints delivery k (some simStatus)) events).statusRef
      ≠ SimStatus.at_pickup ∧
    SimStatus.at_pickup ∉
      reportStatuses (run (Driver.start routePoints delivery k (some simStatus)) events).log := by
  have h0 : (Driver.start routePoints delivery k (some simStatus)).PastPickup := by
    refine ⟨?_, ?_, ?_⟩
    · simp [Driver.start, hk]
    · rcases hs with hs | hs <;> simp [Driver.start, hs]
    · simp [Driver.start, reportStatuses]
  have h := run_pastPickup _ events h0
  exact ⟨h.status, h.silent⟩

/-- Witness of C2: five waypoints (pickup index 2), resumed at index 3 in
`going_to_delivery`, three ticks. -/
theorem resume_past_pickup_never_at_pickup_witness :
    (SimStatus.going_to_delivery = SimStatus.going_to_pickup ∨
      SimStatus.going_to_delivery = SimStatus.going_to_delivery) ∧
    (3 : Int) ≥ pickupIndexOf [⟨0, 0⟩, ⟨1, 1⟩, ⟨2, 2⟩, ⟨3, 3⟩, ⟨4, 4⟩] ∧
    (run (Driver.start [⟨0, 0⟩, ⟨1, 1⟩, ⟨2, 2⟩, ⟨3, 3⟩, ⟨4, 4⟩] ⟨7⟩ 3
        (some SimStatus.going_to_delivery))
      [Event.tick, Event.tick, Event.tick]).statusRef ≠ SimStatus.at_pickup ∧
    SimStatus.at_pickup ∉
      reportStatuses (run (Driver.start [⟨0, 0⟩, ⟨1, 1⟩, ⟨2, 2⟩, ⟨3, 3⟩, ⟨4, 4⟩] ⟨7⟩ 3
        (some SimStatus.going_to_delivery))
      [Event.tick, Event.tick, Event.tick]).log :=
  ⟨Or.inr rfl, by decide,
    resume_past_pickup_never_at_pickup [⟨0, 0⟩, ⟨1, 1⟩, ⟨2, 2⟩, ⟨3, 3⟩, ⟨4, 4⟩] ⟨7⟩ 3
      SimStatus.going_to_delivery [Event.tick, Event.tick, Event.tick] (Or.inr rfl)
      (by decide)⟩

/-- C3. Once a tick of the driver has set the status to `completed`, any
number of later interval ticks calls neither `sendLocationViaWebSocket` nor
`handleUpdateStatus` (no checkpoint write, no location update): the log stays
as the completing tick left it, and the status stays `completed`. -/
theorem silent_after_completed (d : Driver) (n : Nat)
    (hbefore : d.statusRef ≠ SimStatus.completed)
    (hafter : (intervalTick d).statusRef = SimStatus.completed) :
    (ticks n (intervalTick d)).log = (intervalTick d).log ∧
    (ticks n (intervalTick d)).statusRef = SimStatus.completed := by
  have hc : (intervalTick d).len ≤ (intervalTick d).currentIndex := by
    simp only [intervalTick] at hafter ⊢
    split_ifs at hafter ⊢ with h1 h2 h3 h4 <;>
      first
      | exact absurd hafter hbefore
      | exact h3.2
  rw [ticks_completed n _ hafter hc]
  exact ⟨rfl, hafter⟩

/-- Witness of C3: two waypoints, a driver in `going_to_delivery` at the last
index; its next tick completes and three further ticks stay silent. -/
theorem silent_after_completed_witness :
    (Driver.start [⟨0, 0⟩, ⟨1, 1⟩] ⟨7⟩ 1 (some SimStatus.going_to_delivery)).statusRef
      ≠ SimStatus.completed ∧
    (intervalTick (Driver.start [⟨0, 0⟩, ⟨1, 1⟩] ⟨7⟩ 1
      (some SimStatus.going_to_delivery))).statusRef = SimStatus.completed ∧
    (ticks 3 (intervalTick (Driver.start [⟨0, 0⟩, ⟨1, 1⟩] ⟨7⟩ 1
      (some SimStatus.going_to_delivery)))).log =
      (intervalTick (Driver.start [⟨0, 0⟩, ⟨1, 1⟩] ⟨7⟩ 1
        (some SimStatus.going_to_delivery))).log ∧
    (ticks 3 (intervalTick (Driver.start [⟨0, 0⟩, ⟨1, 1⟩] ⟨7⟩ 1
      (some SimStatus.going_to_delivery)))).statusRef = SimStatus.completed :=
  ⟨by decide, by decide,
    silent_after_completed (Driver.start [⟨0, 0⟩, ⟨1, 1⟩] ⟨7⟩ 1
      (some SimStatus.going_to_delivery)) 3 (by decide) (by decide)⟩

/-- C4 fails on the code. Two calls of `startSimulation` made by closures of
one render both pass the guard, because both read the `isSimulating` that
render captured: after a route of two waypoints is set and shown, two starts
leave two live interval timers, `simulationRef` holds only the second
handle, and `stopSimulation` leaves the first timer alive. When a render
happens between the two starts the second one is without effect. -/
theorem two_starts_from_one_render :
    (Mounted.initial.steps
      [Step.call (Call.setRoutePoints [⟨0, 0⟩, ⟨1, 1⟩]), Step.rerender,
       Step.call (Call.startSimulation (some ⟨7⟩) 0),
       Step.call (Call.startSimulation (some ⟨7⟩) 0)]).live.intervals.length = 2 ∧
    (Mounted.initial.steps
      [Step.call (Call.setRoutePoints [⟨0, 0⟩, ⟨1, 1⟩]), Step.rerender,
       Step.call (Call.startSimulation (some ⟨7⟩) 0),
       Step.call (Call.startSimulation (some ⟨7⟩) 0)]).live.simulationRef = some 2 ∧
    (Mounted.initial.steps
      [Step.call (Call.setRoutePoints [⟨0, 0⟩, ⟨1, 1⟩]), Step.rerender,
       Step.call (Call.startSimulation (some ⟨7⟩) 0),
       Step.call (Call.startSimulation (some ⟨7⟩) 0),
       Step.call Call.stopSimulation]).live.intervals.length = 1 ∧
    (Mounted.initial.steps
      [Step.call (Call.setRoutePoints [⟨0, 0⟩, ⟨1, 1⟩]), Step.rerender,
       Step.call (Call.startSimulation (some ⟨7⟩) 0), Step.rerender,
       Step.call (Call.startSimulation (some ⟨7⟩) 0)]).live.intervals.length = 1 := by
  decide

/-- C5. With point count 50 the point at index 25 of `calculateDirectRoute` is
the coordinate-wise midpoint `(start + end) / 2` of the endpoints, over exact
(rational) arithmetic; for the endpoints (28.6139, 77.2090) and
(28.7000, 77.3000) it is (28.65695, 77.2545). -/
theorem direct_route_midpoint (start finish : Point) :
    (calculateDirectRoute start finish 50).get? 25 =
      some { lat := (start.lat + finish.lat) / 2, lng := (start.lng + finish.lng) / 2 } ∧
    (calculateDirectRoute ⟨28.6139, 77.2090⟩ ⟨28.7000, 77.3000⟩ defaultNumPoints).get? 25 =
      some { lat := 28.65695, lng := 77.2545 } := by
  have key : ∀ a b : Point, (calculateDirectRoute a b 50).get? 25 =
      some { lat := (a.lat + b.lat) / 2, lng := (a.lng + b.lng) / 2 } := by
    intro a b
    have hr : (List.range (50 + 1)).get? 25 = some 25 := by decide
    rw [calculateDirectRoute, List.get?_eq_getElem?, List.getElem?_map,
      ← List.get?_eq_getElem?, hr]
    simp only [Option.map_some', Option.some.injEq, Point.mk.injEq]
    constructor <;> · push_cast; ring
  refine ⟨key start finish, ?_⟩
  rw [show defaultNumPoints = 50 from rfl, key]
  simp only [Option.some.injEq, Point.mk.injEq]
  constructor <;> norm_num

set_option maxRecDepth 100000 in
/-- C6 as stated fails: on a route of 61 waypoints the driver started at index
0 is still in `going_to_delivery` (at the last index, 60) after its 30th
`going_to_delivery` tick. -/
theorem full_run_61_not_completed_after_30 :
    (ticks 30 (dwellExpiry (ticks 30
      (Driver.start (List.replicate 61 ⟨0, 0⟩) ⟨7⟩ 0 (some SimStatus.going_to_pickup))))).statusRef
      ≠ SimStatus.completed := by
  decide

/-- C6, amended. A driver started at index 0 in `going_to_pickup` on a route of
61 waypoints is in `going_to_pickup` after each of its first 29 ticks, enters
`at_pickup` on its 30th tick with one dwell timer pending, is not changed by
ticks while it waits, is in `going_to_delivery` after the dwell expiry and
after each of the next 30 ticks (the 30th brings the counter to the last
index, 60), and enters `completed` on the 31st `going_to_delivery` tick. -/
theorem full_run_61 (routePoints : List Point) (delivery : Delivery)
    (h : routePoints.length = 61) :
    (∀ t : Nat, t < 30 →
      (ticks t (Driver.start routePoints delivery 0 (some SimStatus.going_to_pickup))).statusRef
        = SimStatus.going_to_pickup) ∧
    (ticks 30 (Driver.start routePoints delivery 0 (some SimStatus.going_to_pickup))).statusRef
      = SimStatus.at_pickup ∧
    (ticks 30 (Driver.start routePoints delivery 0 (some SimStatus.going_to_pickup))).dwellTimers
      = 1 ∧
    (∀ m : Nat,
      ticks m (ticks 30 (Driver.start routePoints delivery 0 (some SimStatus.going_to_pickup)))
        = ticks 30 (Driver.start routePoints delivery 0 (some SimStatus.going_to_pickup))) ∧
    (∀ j : Nat, j ≤ 30 →
      (ticks j (dwellExpiry (ticks 30
        (Driver.start routePoints delivery 0 (some SimStatus.going_to_pickup))))).statusRef
        = SimStatus.going_to_delivery) ∧
    (ticks 30 (dwellExpiry (ticks 30
      (Driver.start routePoints delivery 0 (some SimStatus.going_to_pickup))))).currentIndex
      = 60 ∧
    (ticks 31 (dwellExpiry (ticks 30
      (Driver.start routePoints delivery 0 (some SimStatus.going_to_pickup))))).statusRef
      = SimStatus.completed := by
  generalize hd0 : Driver.start routePoints delivery 0 (some SimStatus.going_to_pickup) = d0
  have hpiv : pickupIndexOf routePoints = 30 := by simp [pickupIndexOf, h]
  have hs0 : d0.statusRef = SimStatus.going_to_pickup := by rw [← hd0]; rfl
  have hc0 : d0.currentIndex = 0 := by rw [← hd0]; rfl
  have hr0 : d0.routePoints = routePoints := by rw [← hd0]; rfl
  have ht0 : d0.dwellTimers = 0 := by rw [← hd0]; rfl
  have hp0 : d0.pickupReached = false := by
    rw [← hd0]
    simp [Driver.start, hpiv]
  have hpi0 : d0.pickupIndex = 30 := by simp [Driver.pickupIndex, hr0, hpiv]
  have hl0 : d0.len = 61 := by simp [Driver.len, hr0, h]
  have hbefore : ∀ t : Nat, t < 30 → Driver.Advanced d0 (ticks t d0) t := by
    intro t ht
    exact ticks_to_pickup t d0 hs0 (by rw [hc0, hpi0]; omega) (by rw [hpi0, hl0]; norm_num)
  obtain ⟨a1, a2, a3, a4, a5, a6⟩ := hbefore 29 (by norm_num)
  have hpi29 : (ticks 29 d0).pickupIndex = 30 := by simp [Driver.pickupIndex, a1, hr0, hpiv]
  have h30 := intervalTick_arrive (ticks 29 d0) (a3.trans hs0) (a4.trans hp0)
    (by rw [hpi29, a6, hc0]; norm_num)
  rw [← ticks_succ_last] at h30
  generalize hd30 : ticks (29 + 1) d0 = d30 at h30
  have hs30 : d30.statusRef = SimStatus.at_pickup := by rw [h30]
  have ht30 : d30.dwellTimers = 1 := by rw [h30]; simp [a5, ht0]
  have hc30 : d30.currentIndex = 30 := by rw [h30]; simp [a6, hc0]
  have hr30 : d30.routePoints = routePoints := by rw [h30]; simp [a1, hr0]
  have hd1 : dwellExpiry d30 =
      { d30 with statusRef := SimStatus.going_to_delivery, dwellTimers := d30.dwellTimers - 1 } := by
    simp [dwellExpiry, ht30]
  generalize hd1n : dwellExpiry d30 = d1 at hd1
  have hs1 : d1.statusRef = SimStatus.going_to_delivery := by rw [hd1]
  have hc1 : d1.currentIndex = 30 := by rw [hd1]; exact hc30
  have hl1 : d1.len = 61 := by rw [hd1]; simp [Driver.len, hr30, h]
  have hafter : ∀ j : Nat, j ≤ 30 → Driver.Advanced d1 (ticks j d1) j := by
    intro j hj
    exact ticks_to_delivery j d1 hs1 (by rw [hc1, hl1]; omega)
  obtain ⟨b1, b2, b3, b4, b5, b6⟩ := hafter 30 (le_refl 30)
  have hl60 : (ticks 30 d1).len = 61 := by
    simp only [Driver.len, b1] at hl1 ⊢
    exact hl1
  have h61 := intervalTick_complete (ticks 30 d1) (b3.trans hs1)
    (by rw [hl60, b6, hc1]; norm_num)
  rw [← ticks_succ_last] at h61
  have h61b : (ticks 31 d1).statusRef = SimStatus.completed := by
    show (ticks (30 + 1) d1).statusRef = SimStatus.completed
    rw [h61]
  refine ⟨fun t ht => (hbefore t ht).statusRef.trans hs0, hs30, ht30,
    fun m => ticks_at_pickup m d30 hs30, fun j hj => (hafter j hj).statusRef.trans hs1, ?_, ?_⟩
  · rw [b6, hc1]; norm_num
  · exact h61b

/-- Witness of C6 (amended): the route of 61 copies of one waypoint. -/
theorem full_run_61_witness :
    (List.replicate 61 (⟨0, 0⟩ : Point)).length = 61 ∧
    (ticks 30 (Driver.start (List.replicate 61 ⟨0, 0⟩) ⟨7⟩ 0
      (some SimStatus.going_to_pickup))).statusRef = SimStatus.at_pickup ∧
    (ticks 31 (dwellExpiry (ticks 30 (Driver.start (List.replicate 61 ⟨0, 0⟩) ⟨7⟩ 0
      (some SimStatus.going_to_pickup))))).statusRef = SimStatus.completed :=
  ⟨by simp,
    (full_run_61 (List.replicate 61 ⟨0, 0⟩) ⟨7⟩ (by simp)).2.1,
    (full_run_61 (List.replicate 61 ⟨0, 0⟩) ⟨7⟩ (by simp)).2.2.2.2.2.2⟩

/-- C7 as stated fails: on a route of three waypoints the `going_to_delivery`
tick that advances the counter to the last index, 2, leaves the status
`going_to_delivery`. -/
theorem last_waypoint_tick_not_completed :
    (intervalTick (ticks 1 (Driver.start [⟨0, 0⟩, ⟨1, 1⟩, ⟨2, 2⟩] ⟨7⟩ 0
      (some SimStatus.going_to_delivery)))).currentIndex = 3 - 1 ∧
    (ticks 1 (Driver.start [⟨0, 0⟩, ⟨1, 1⟩, ⟨2, 2⟩] ⟨7⟩ 0
      (some SimStatus.going_to_delivery))).statusRef = SimStatus.going_to_delivery ∧
    (intervalTick (ticks 1 (Driver.start [⟨0, 0⟩, ⟨1, 1⟩, ⟨2, 2⟩] ⟨7⟩ 0
      (some SimStatus.going_to_delivery)))).statusRef ≠ SimStatus.completed := by
  decide

/-- C7, amended. For every driver in `going_to_delivery`, the tick that advances
the counter to the last index `n - 1` reports the final waypoint with status
`going_to_delivery` and leaves the status unchanged; the next tick (counter
`n`) sets the status to `completed` and reports the final waypoint, index
`n - 1`, with status `completed`, followed by the `completed` status update. -/
theorem completes_on_tick_after_last_waypoint (d : Driver)
    (hs : d.statusRef = SimStatus.going_to_delivery)
    (hlast : d.currentIndex + 1 = d.len - 1) :
    (intervalTick d).statusRef = SimStatus.going_to_delivery ∧
    (intervalTick d).currentIndex = d.len - 1 ∧
    (intervalTick d).log = d.log ++
      [Effect.sendLocationViaWebSocket (getPoint d.routePoints (d.len - 1))
        d.delivery.delivery_id (d.len - 1) SimStatus.going_to_delivery] ∧
    (intervalTick (intervalTick d)).statusRef = SimStatus.completed ∧
    (intervalTick (intervalTick d)).log = (intervalTick d).log ++
      [Effect.sendLocationViaWebSocket (getPoint d.routePoints (d.len - 1))
        d.delivery.delivery_id (d.len - 1) SimStatus.completed,
       Effect.handleUpdateStatus DeliveryStatus.completed] := by
  have h1 := intervalTick_to_delivery d hs (by omega)
  have hs1 : (intervalTick d).statusRef = SimStatus.going_to_delivery := by rw [h1]; exact hs
  have hl1 : (intervalTick d).len = d.len := by rw [h1]; rfl
  have hc1 : (intervalTick d).currentIndex = d.currentIndex + 1 := by rw [h1]
  have hr1 : (intervalTick d).routePoints = d.routePoints := intervalTick_routePoints d
  have hd1 : (intervalTick d).delivery = d.delivery := by rw [h1]
  have h2 := intervalTick_complete (intervalTick d) hs1 (by rw [hl1, hc1]; omega)
  refine ⟨hs1, by rw [hc1, hlast], ?_, by rw [h2], ?_⟩
  · rw [h1, hlast]
  · rw [h2]
    simp only [hl1, hr1, hd1]

/-- Witness of C7 (amended): three waypoints, a `going_to_delivery` driver whose
counter is 1. -/
theorem completes_on_tick_after_last_waypoint_witness :
    (ticks 1 (Driver.start [⟨0, 0⟩, ⟨1, 1⟩, ⟨2, 2⟩] ⟨7⟩ 0
      (some SimStatus.going_to_delivery))).statusRef = SimStatus.going_to_delivery ∧
    (intervalTick (ticks 1 (Driver.start [⟨0, 0⟩, ⟨1, 1⟩, ⟨2, 2⟩] ⟨7⟩ 0
      (some SimStatus.going_to_delivery)))).statusRef = SimStatus.going_to_delivery ∧
    (intervalTick (intervalTick (ticks 1 (Driver.start [⟨0, 0⟩, ⟨1, 1⟩, ⟨2, 2⟩] ⟨7⟩ 0
      (some SimStatus.going_to_delivery))))).statusRef = SimStatus.completed :=
  ⟨by decide,
    (completes_on_tick_after_last_waypoint
      (ticks 1 (Driver.start [⟨0, 0⟩, ⟨1, 1⟩, ⟨2, 2⟩] ⟨7⟩ 0
        (some SimStatus.going_to_delivery))) (by decide) (by decide)).1,
    (completes_on_tick_after_last_waypoint
      (ticks 1 (Driver.start [⟨0, 0⟩, ⟨1, 1⟩, ⟨2, 2⟩] ⟨7⟩ 0
        (some SimStatus.going_to_delivery))) (by decide) (by decide)).2.2.2.1⟩

/-- C8 as stated fails: on a route of two waypoints (pickup index 1) the first
tick after the dwell expiry completes the run and reports index 1 again, not
index `pickupIndex + 1 = 2`. -/
theorem first_tick_after_dwell_two_waypoints :
    (intervalTick (Driver.start [⟨0, 0⟩, ⟨1, 1⟩] ⟨7⟩ 0
      (some SimStatus.going_to_pickup))).statusRef = SimStatus.at_pickup ∧
    (dwellExpiry (intervalTick (Driver.start [⟨0, 0⟩, ⟨1, 1⟩] ⟨7⟩ 0
      (some SimStatus.going_to_pickup)))).statusRef = SimStatus.going_to_delivery ∧
    reportIndices (intervalTick (dwellExpiry (intervalTick
      (Driver.start [⟨0, 0⟩, ⟨1, 1⟩] ⟨7⟩ 0 (some SimStatus.going_to_pickup))))).log = [1, 1] ∧
    pickupIndexOf [⟨0, 0⟩, ⟨1, 1⟩] + 1 = 2 := by
  decide

/-- C8, amended. On every state `d` a driver of `startSimulationFromIndex`
reaches: a `going_to_pickup` tick that brings the counter to `pickupIndex`
sets the status to `at_pickup` and starts a dwell timer; a tick in status
`at_pickup` changes nothing; and when the route has a waypoint after the
pickup (`pickupIndex + 1 < len`), after any number of suspended ticks the
dwell expiry sets `going_to_delivery` and the first tick then reports index
`pickupIndex + 1` with status `going_to_delivery`. -/
theorem pickup_arrival_and_dwell (routePoints : List Point) (delivery : Delivery)
    (startIndex : Int) (simStatus : Option SimStatus) (events : List Event) (d : Driver)
    (hd : d = run (Driver.start routePoints delivery startIndex simStatus) events) :
    (d.statusRef = SimStatus.going_to_pickup → d.currentIndex + 1 = d.pickupIndex →
      (intervalTick d).statusRef = SimStatus.at_pickup ∧
      (intervalTick d).dwellTimers = d.dwellTimers + 1) ∧
    (d.statusRef = SimStatus.at_pickup → intervalTick d = d) ∧
    (d.statusRef = SimStatus.going_to_pickup → d.currentIndex + 1 = d.pickupIndex →
      d.pickupIndex + 1 < d.len → ∀ m : Nat,
        (dwellExpiry (ticks m (intervalTick d))).statusRef = SimStatus.going_to_delivery ∧
        (intervalTick (dwellExpiry (ticks m (intervalTick d)))).log =
          (intervalTick d).log ++
            [Effect.sendLocationViaWebSocket (getPoint d.routePoints (d.pickupIndex + 1))
              d.delivery.delivery_id (d.pickupIndex + 1) SimStatus.going_to_delivery]) := by
  have hfresh : d.Fresh := by
    rw [hd]
    exact run_fresh _ events (Driver.start_fresh routePoints delivery startIndex simStatus)
  have harrive : d.statusRef = SimStatus.going_to_pickup → d.currentIndex + 1 = d.pickupIndex →
      intervalTick d =
        { d with
          statusRef := SimStatus.at_pickup
          pickupReached := true
          currentIndex := d.currentIndex + 1
          currentRouteIndex := d.pickupIndex
          dwellTimers := d.dwellTimers + 1
          log := d.log ++
            [Effect.sendLocationViaWebSocket (getPoint d.routePoints d.pickupIndex)
                d.delivery.delivery_id d.pickupIndex SimStatus.at_pickup,
             Effect.handleUpdateStatus DeliveryStatus.in_progress] } :=
    fun hs hc => intervalTick_arrive d hs (hfresh hs (by omega)) (by omega)
  refine ⟨?_, intervalTick_at_pickup d, ?_⟩
  · intro hs hc
    rw [harrive hs hc]
    exact ⟨rfl, rfl⟩
  · intro hs hc hlen m
    have ha := harrive hs hc
    generalize intervalTick d = a at ha
    have hsa : a.statusRef = SimStatus.at_pickup := by rw [ha]
    rw [ticks_at_pickup m a hsa]
    have hta : a.dwellTimers ≠ 0 := by rw [ha]; simp
    have hw : dwellExpiry a =
        { a with statusRef := SimStatus.going_to_delivery, dwellTimers := a.dwellTimers - 1 } := by
      simp [dwellExpiry, hta]
    generalize dwellExpiry a = w at hw
    have hsw : w.statusRef = SimStatus.going_to_delivery := by rw [hw]
    have hcw : w.currentIndex = d.pickupIndex := by rw [hw, ha]; exact hc
    have hrw : w.routePoints = d.routePoints := by rw [hw, ha]
    have hdw : w.delivery = d.delivery := by rw [hw, ha]
    have hlw : w.len = d.len := by simp [Driver.len, hrw]
    have hlogw : w.log = a.log := by rw [hw]
    refine ⟨hsw, ?_⟩
    rw [intervalTick_to_delivery w hsw (by rw [hcw, hlw]; exact hlen)]
    simp only [hrw, hdw, hcw, hlogw]

/-- Witness of C8 (amended): five waypoints (pickup index 2), start at index 0
in `going_to_pickup`, after one tick. -/
theorem pickup_arrival_and_dwell_witness :
    (intervalTick (run (Driver.start [⟨0, 0⟩, ⟨1, 1⟩, ⟨2, 2⟩, ⟨3, 3⟩, ⟨4, 4⟩] ⟨7⟩ 0
      (some SimStatus.going_to_pickup)) [Event.tick])).statusRef = SimStatus.at_pickup ∧
    reportIndices (intervalTick (dwellExpiry (ticks 2 (intervalTick
      (run (Driver.start [⟨0, 0⟩, ⟨1, 1⟩, ⟨2, 2⟩, ⟨3, 3⟩, ⟨4, 4⟩] ⟨7⟩ 0
        (some SimStatus.going_to_pickup)) [Event.tick]))))).log = [1, 2, 3] :=
  ⟨((pickup_arrival_and_dwell [⟨0, 0⟩, ⟨1, 1⟩, ⟨2, 2⟩, ⟨3, 3⟩, ⟨4, 4⟩] ⟨7⟩ 0
      (some SimStatus.going_to_pickup) [Event.tick] _ rfl).1 (by decide) (by decide)).1,
    by
      rw [((pickup_arrival_and_dwell [⟨0, 0⟩, ⟨1, 1⟩, ⟨2, 2⟩, ⟨3, 3⟩, ⟨4, 4⟩] ⟨7⟩ 0
        (some SimStatus.going_to_pickup) [Event.tick] _ rfl).2.2
          (by decide) (by decide) (by decide) 2).2]
      decide⟩

/-- C9 as stated fails: for the saved route index -1 and a route of three
waypoints the resume index is -1, outside `[0, 2]`. -/
theorem resume_index_negative :
    resumeIndex (some (-1)) [⟨0, 0⟩, ⟨1, 1⟩, ⟨2, 2⟩] = -1 ∧
    ¬ (0 ≤ resumeIndex (some (-1)) [⟨0, 0⟩, ⟨1, 1⟩, ⟨2, 2⟩]) := by
  decide

/-- C9, amended. For every saved route index that is missing or non-negative
and every non-empty recomputed route the resume index lies in
`[0, len(route) - 1]`. -/
theorem resume_index_in_range (current_route_index : Option Int) (routePoints : List Point)
    (hne : routePoints ≠ [])
    (hnn : ∀ i : Int, current_route_index = some i → 0 ≤ i) :
    0 ≤ resumeIndex current_route_index routePoints ∧
    resumeIndex current_route_index routePoints ≤ (routePoints.length : Int) - 1 := by
  have hpos : 0 < routePoints.length := List.length_pos.mpr hne
  have hsaved : 0 ≤ savedRouteIndex current_route_index := by
    unfold savedRouteIndex
    cases current_route_index with
    | none => exact le_refl 0
    | some i =>
      simp only
      split_ifs
      · exact le_refl 0
      · exact hnn i rfl
  unfold resumeIndex
  constructor
  · exact le_min hsaved (by omega)
  · exact min_le_right _ _

/-- Witness of C9 (amended): saved index 7 on a route of three waypoints is
clamped to 2. -/
theorem resume_index_in_range_witness :
    0 ≤ resumeIndex (some 7) [⟨0, 0⟩, ⟨1, 1⟩, ⟨2, 2⟩] ∧
    resumeIndex (some 7) [⟨0, 0⟩, ⟨1, 1⟩, ⟨2, 2⟩] ≤
      (([⟨0, 0⟩, ⟨1, 1⟩, ⟨2, 2⟩] : List Point).length : Int) - 1 :=
  resume_index_in_range (some 7) [⟨0, 0⟩, ⟨1, 1⟩, ⟨2, 2⟩] (by simp)
    (fun i hi => by
      simp only [Option.some.injEq] at hi
      omega)

/-- C10 fails on the code. A driver resumed with saved status `at_pickup` has
no dwell timer pending, so every sequence of interval ticks and dwell
expiries leaves it exactly as it started: the status stays `at_pickup`, the
route index never advances and nothing is reported. -/
theorem resumed_at_pickup_never_leaves (routePoints : List Point) (delivery : Delivery)
    (current_route_index : Option Int) (events : List Event) :
    (resumeDriver routePoints delivery current_route_index SimStatus.at_pickup).dwellTimers = 0 ∧
    (resumeDriver routePoints delivery current_route_index SimStatus.at_pickup).statusRef
      = SimStatus.at_pickup ∧
    run (resumeDriver routePoints delivery current_route_index SimStatus.at_pickup) events
      = resumeDriver routePoints delivery current_route_index SimStatus.at_pickup :=
  ⟨rfl, rfl, run_at_pickup_no_timer _ events rfl rfl⟩

/-- C11 as stated fails: a fetched state whose `simulation_status` is
`cancelled`, and a fetched state whose `status` is `completed` while its
`simulation_status` is `going_to_delivery`, both end in a call of
`startSimulationFromIndex`. -/
theorem restore_starts_on_terminal_state :
    restoreDeliveryState (some 1) (some [⟨5, RecordStatus.accepted⟩])
      (some { delivery_id := 5, status := RecordStatus.in_progress,
              order := some ⟨some ⟨1, 1⟩, some ⟨2, 2⟩⟩, last_location := some ⟨1, 1⟩,
              simulation_status := some SimStatus.cancelled, current_route_index := some 1 })
      none [⟨0, 0⟩, ⟨1, 1⟩, ⟨2, 2⟩] false
      = some { delivery := ⟨5, RecordStatus.in_progress, some ⟨1, 1⟩, some ⟨2, 2⟩⟩,
               startIndex := 1, simStatus := SimStatus.cancelled } ∧
    restoreDeliveryState (some 1) (some [⟨5, RecordStatus.accepted⟩])
      (some { delivery_id := 5, status := RecordStatus.completed,
              order := some ⟨some ⟨1, 1⟩, some ⟨2, 2⟩⟩, last_location := some ⟨1, 1⟩,
              simulation_status := some SimStatus.going_to_delivery,
              current_route_index := some 1 })
      none [⟨0, 0⟩, ⟨1, 1⟩, ⟨2, 2⟩] false
      = some { delivery := ⟨5, RecordStatus.completed, some ⟨1, 1⟩, some ⟨2, 2⟩⟩,
               startIndex := 1, simStatus := SimStatus.going_to_delivery } := by
  decide

/-- C11, amended. `restoreDeliveryState` does not call
`startSimulationFromIndex` whenever the `simulation_status` of the fetched
state is `completed`, `idle` or missing, and whenever no listed delivery has
status `accepted`, `in_progress` or `collected`. -/
theorem restore_skips_finished (activeRider : Option Nat)
    (deliveries : Option (List ActiveDelivery)) (st : FetchedState)
    (riderLocation : Option (Option Point)) (routePoints : List Point) (isSimulating : Bool)
    (h : st.simulation_status = some SimStatus.completed ∨
      st.simulation_status = some SimStatus.idle ∨
      st.simulation_status = none ∨
      ∀ ds, deliveries = some ds → ∀ d ∈ ds, d.status ≠ RecordStatus.accepted ∧
        d.status ≠ RecordStatus.in_progress ∧ d.status ≠ RecordStatus.collected) :
    restoreDeliveryState activeRider deliveries (some st) riderLocation routePoints
      isSimulating = none := by
  unfold restoreDeliveryState
  cases activeRider with
  | none => rfl
  | some rider =>
    cases deliveries with
    | none => rfl
    | some ds =>
      cases hf : ds.find? (fun d =>
          decide (d.status = RecordStatus.accepted) || decide (d.status = RecordStatus.in_progress)
            || decide (d.status = RecordStatus.collected)) with
      | none => simp only [hf]
      | some found =>
        rcases h with h | h | h | h
        · cases ho : st.order with
          | none => simp only [hf, ho]
          | some order =>
            simp only [hf, ho, h]
            split
            · next heq =>
              simp only [Option.some.injEq] at heq
              rw [← heq]
              simp
            · rfl
        · cases ho : st.order with
          | none => simp only [hf, ho]
          | some order =>
            simp only [hf, ho, h]
            split
            · next heq =>
              simp only [Option.some.injEq] at heq
              rw [← heq]
              simp
            · rfl
        · cases ho : st.order with
          | none => simp only [hf, ho]
          | some order =>
            simp only [hf, ho, h]
            split
            · next heq => simp at heq
            · rfl
        · have hmem := List.mem_of_find?_eq_some hf
          have hsome := List.find?_some hf
          obtain ⟨h1, h2, h3⟩ := h ds rfl found hmem
          simp [h1, h2, h3] at hsome

/-- Witness of C11 (amended): a listed accepted delivery whose fetched state
has simulation status `completed`. -/
theorem restore_skips_finished_witness :
    restoreDeliveryState (some 1) (some [⟨5, RecordStatus.accepted⟩])
      (some { delivery_id := 5, status := RecordStatus.in_progress,
              order := some ⟨some ⟨1, 1⟩, some ⟨2, 2⟩⟩, last_location := some ⟨1, 1⟩,
              simulation_status := some SimStatus.completed, current_route_index := some 1 })
      none [⟨0, 0⟩, ⟨1, 1⟩, ⟨2, 2⟩] false = none :=
  restore_skips_finished (some 1) (some [⟨5, RecordStatus.accepted⟩])
    { delivery_id := 5, status := RecordStatus.in_progress,
      order := some ⟨some ⟨1, 1⟩, some ⟨2, 2⟩⟩, last_location := some ⟨1, 1⟩,
      simulation_status := some SimStatus.completed, current_route_index := some 1 }
    none [⟨0, 0⟩, ⟨1, 1⟩, ⟨2, 2⟩] false (Or.inl rfl)

/-- Legs of unequal length: for a first leg of 2 waypoints and a second leg of 5
waypoints returned by the provider, the route set by `setupRoute` has 7
waypoints and the driver's pickup index on it is 3, not 2. -/
theorem pickup_index_differs_from_first_leg :
    (setupRoute (some ⟨5, RecordStatus.accepted, some ⟨1, 1⟩, some ⟨5, 5⟩⟩) (some ⟨3, 3⟩)
      (ProviderOutcome.answered ResponseCode.Ok [⟨some [(3, 3), (1, 1)]⟩])
      (ProviderOutcome.answered ResponseCode.Ok
        [⟨some [(1, 1), (2, 2), (3, 3), (4, 4), (5, 5)]⟩])
      Component.initial).routePoints.length = 2 + 5 ∧
    pickupIndexOf (setupRoute (some ⟨5, RecordStatus.accepted, some ⟨1, 1⟩, some ⟨5, 5⟩⟩)
      (some ⟨3, 3⟩)
      (ProviderOutcome.answered ResponseCode.Ok [⟨some [(3, 3), (1, 1)]⟩])
      (ProviderOutcome.answered ResponseCode.Ok
        [⟨some [(1, 1), (2, 2), (3, 3), (4, 4), (5, 5)]⟩])
      Component.initial).routePoints = 3 := by
  decide

/-- The pickup index on concatenated legs. When `setupRoute` concatenates the
legs `route1` and `route2`,
the pickup index the driver uses on the concatenated route is
`floor((len(route1) + len(route2)) / 2)`; it equals `len(route1)` exactly when
`route2` has as many waypoints as `route1` or one more. -/
theorem pickup_index_of_concatenated_legs (dl : DeliveryRecord) (loc pickup delivery : Point)
    (outcome1 outcome2 : ProviderOutcome) (c : Component) (route1 route2 : List Point)
    (hp : dl.pickup_location = some pickup) (hd : dl.delivery_location = some delivery)
    (hlat : pickup.lat ≠ 0 ∧ delivery.lat ≠ 0)
    (h1 : calculateRoute loc pickup outcome1 = Except.ok route1)
    (h2 : calculateRoute pickup delivery outcome2 = Except.ok route2) :
    (setupRoute (some dl) (some loc) outcome1 outcome2 c).routePoints = route1 ++ route2 ∧
    pickupIndexOf (setupRoute (some dl) (some loc) outcome1 outcome2 c).routePoints =
      (((route1.length + route2.length) / 2 : Nat) : Int) ∧
    (pickupIndexOf (setupRoute (some dl) (some loc) outcome1 outcome2 c).routePoints =
        (route1.length : Int) ↔
      route2.length = route1.length ∨ route2.length = route1.length + 1) := by
  have hr : (setupRoute (some dl) (some loc) outcome1 outcome2 c).routePoints
      = route1 ++ route2 := by
    simp [setupRoute, hp, hd, hlat.1, hlat.2, h1, h2]
  rw [hr]
  refine ⟨rfl, by simp [pickupIndexOf], ?_⟩
  simp only [pickupIndexOf, List.length_append]
  constructor
  · intro h
    have h3 : (route1.length + route2.length) / 2 = route1.length := by exact_mod_cast h
    omega
  · intro h
    have h3 : (route1.length + route2.length) / 2 = route1.length := by omega
    exact_mod_cast h3

/-- Instance of the lemma above: two provider legs of two waypoints each. -/
theorem pickup_index_of_concatenated_legs_witness :
    (setupRoute (some ⟨5, RecordStatus.accepted, some ⟨1, 1⟩, some ⟨5, 5⟩⟩) (some ⟨3, 3⟩)
      (ProviderOutcome.answered ResponseCode.Ok [⟨some [(3, 3), (1, 1)]⟩])
      (ProviderOutcome.answered ResponseCode.Ok [⟨some [(1, 1), (5, 5)]⟩])
      Component.initial).routePoints = [⟨3, 3⟩, ⟨1, 1⟩] ++ [⟨1, 1⟩, ⟨5, 5⟩] :=
  (pickup_index_of_concatenated_legs ⟨5, RecordStatus.accepted, some ⟨1, 1⟩, some ⟨5, 5⟩⟩
    ⟨3, 3⟩ ⟨1, 1⟩ ⟨5, 5⟩
    (ProviderOutcome.answered ResponseCode.Ok [⟨some [(3, 3), (1, 1)]⟩])
    (ProviderOutcome.answered ResponseCode.Ok [⟨some [(1, 1), (5, 5)]⟩])
    Component.initial [⟨3, 3⟩, ⟨1, 1⟩] [⟨1, 1⟩, ⟨5, 5⟩] rfl rfl (by decide) rfl rfl).1

/-- C12 fails on the code. For provider legs of 5 waypoints (from the rider at
(5, 5) to the pickup at (1, 1)) and 2 waypoints (from the pickup to the
drop-off at (3, 3)) `setupRoute` builds a route of 7 waypoints whose pickup
boundary `len(leg1)` is 5, but the driver uses `floor(7 / 2) = 3`: on its
third tick it sets `at_pickup` and reports the waypoint (2, 2) at index 3 as
the pickup point, while the pickup location sits at indices 4 and 5. -/
theorem at_pickup_before_the_pickup :
    (setupRoute (some ⟨7, RecordStatus.accepted, some ⟨1, 1⟩, some ⟨3, 3⟩⟩) (some ⟨5, 5⟩)
      (ProviderOutcome.answered ResponseCode.Ok
        [⟨some [(5, 5), (4, 4), (3, 3), (2, 2), (1, 1)]⟩])
      (ProviderOutcome.answered ResponseCode.Ok [⟨some [(1, 1), (3, 3)]⟩])
      Component.initial).routePoints
      = [⟨5, 5⟩, ⟨4, 4⟩, ⟨3, 3⟩, ⟨2, 2⟩, ⟨1, 1⟩] ++ [⟨1, 1⟩, ⟨3, 3⟩] ∧
    pickupIndexOf ([⟨5, 5⟩, ⟨4, 4⟩, ⟨3, 3⟩, ⟨2, 2⟩, ⟨1, 1⟩] ++ [⟨1, 1⟩, ⟨3, 3⟩]) = 3 ∧
    (ticks 3 (Driver.start ([⟨5, 5⟩, ⟨4, 4⟩, ⟨3, 3⟩, ⟨2, 2⟩, ⟨1, 1⟩] ++ [⟨1, 1⟩, ⟨3, 3⟩]) ⟨7⟩ 0
      (some SimStatus.going_to_pickup))).statusRef = SimStatus.at_pickup ∧
    Effect.sendLocationViaWebSocket (some ⟨2, 2⟩) 7 3 SimStatus.at_pickup ∈
      (ticks 3 (Driver.start ([⟨5, 5⟩, ⟨4, 4⟩, ⟨3, 3⟩, ⟨2, 2⟩, ⟨1, 1⟩] ++ [⟨1, 1⟩, ⟨3, 3⟩]) ⟨7⟩ 0
        (some SimStatus.going_to_pickup))).log ∧
    getPoint ([⟨5, 5⟩, ⟨4, 4⟩, ⟨3, 3⟩, ⟨2, 2⟩, ⟨1, 1⟩] ++ [⟨1, 1⟩, ⟨3, 3⟩]) 5 = some ⟨1, 1⟩ := by
  decide

/-- C13 as stated fails: with the default point count the fallback leg has 51
points, that is the two endpoints and 49 points in between, not 50. -/
theorem direct_route_default_has_51_points :
    (calculateDirectRoute ⟨0, 0⟩ ⟨50, 50⟩ defaultNumPoints).length = 51 ∧
    (calculateDirectRoute ⟨0, 0⟩ ⟨50, 50⟩ defaultNumPoints).length - 2 ≠ 50 := by
  decide

/-- C13, amended. With the default point count the fallback leg of
`calculateDirectRoute` has 51 points: the start at index 0, the end at index
50, and exactly 49 points in between, the one at index `i` (for `0 < i < 50`)
being `start + (end - start) * t` with `t = i / 50` strictly between 0 and 1. -/
theorem direct_route_default_shape (start finish : Point) :
    (calculateDirectRoute start finish defaultNumPoints).length = 51 ∧
    (calculateDirectRoute start finish defaultNumPoints).get? 0 = some start ∧
    (calculateDirectRoute start finish defaultNumPoints).get? 50 = some finish ∧
    ∀ i : Nat, 0 < i → i < 50 →
      (0 : ℚ) < (i : ℚ) / 50 ∧ (i : ℚ) / 50 < 1 ∧
      (calculateDirectRoute start finish defaultNumPoints).get? i =
        some { lat := start.lat + (finish.lat - start.lat) * ((i : ℚ) / 50)
               lng := start.lng + (finish.lng - start.lng) * ((i : ℚ) / 50) } := by
  have hget : ∀ i : Nat, i < 51 →
      (calculateDirectRoute start finish defaultNumPoints).get? i =
        some { lat := start.lat + (finish.lat - start.lat) * ((i : ℚ) / 50)
               lng := start.lng + (finish.lng - start.lng) * ((i : ℚ) / 50) } := by
    intro i hi
    have hr : (List.range (50 + 1))[i]? = some i := by
      rw [List.getElem?_range (by omega)]
    rw [show defaultNumPoints = 50 from rfl, calculateDirectRoute, List.get?_eq_getElem?,
      List.getElem?_map, hr]
    simp
  refine ⟨by simp [calculateDirectRoute, defaultNumPoints], ?_, ?_, ?_⟩
  · rw [hget 0 (by norm_num)]
    simp
  · rw [hget 50 (by norm_num)]
    simp
  · intro i h0 h50
    refine ⟨?_, ?_, hget i (by omega)⟩
    · have : (0 : ℚ) < (i : ℚ) := by exact_mod_cast h0
      positivity
    · have : (i : ℚ) < 50 := by exact_mod_cast h50
      rw [div_lt_one (by norm_num)]
      exact this

/-- Witness of C13 (amended): the point at index 1 between (0, 0) and (50, 50). -/
theorem direct_route_default_shape_witness :
    (calculateDirectRoute ⟨0, 0⟩ ⟨50, 50⟩ defaultNumPoints).get? 1 =
      some { lat := 0 + (50 - 0) * (((1 : Nat) : ℚ) / 50)
             lng := 0 + (50 - 0) * (((1 : Nat) : ℚ) / 50) } :=
  ((direct_route_default_shape ⟨0, 0⟩ ⟨50, 50⟩).2.2.2 1 (by decide) (by decide)).2.2

/-- C14. For every failing provider outcome (the fetch throws, the response is
not ok, the code is not `'Ok'`, or the answer holds no route)
`routingAPI.calculateRoute` returns exactly `calculateDirectRoute(start, end)`
with the default point count, and for every outcome it returns without
throwing. -/
theorem calculate_route_falls_back (start finish : Point) :
    calculateRoute start finish ProviderOutcome.fetchThrows
      = Except.ok (calculateDirectRoute start finish defaultNumPoints) ∧
    calculateRoute start finish ProviderOutcome.notOk
      = Except.ok (calculateDirectRoute start finish defaultNumPoints) ∧
    (∀ routes : List ProviderRoute,
      calculateRoute start finish (ProviderOutcome.answered ResponseCode.other routes)
        = Except.ok (calculateDirectRoute start finish defaultNumPoints)) ∧
    (∀ code : ResponseCode,
      calculateRoute start finish (ProviderOutcome.answered code [])
        = Except.ok (calculateDirectRoute start finish defaultNumPoints)) ∧
    (∀ outcome : ProviderOutcome, ∃ route : List Point,
      calculateRoute start finish outcome = Except.ok route) := by
  refine ⟨rfl, rfl, fun routes => rfl, fun code => ?_, fun outcome => ?_⟩
  · cases code <;> rfl
  · unfold calculateRoute
    cases calculateRouteTry start finish outcome with
    | ok route => exact ⟨route, rfl⟩
    | error e => exact ⟨_, rfl⟩

/-- C15 as stated fails: for an ok answer with code `'Ok'` whose first route
has an empty coordinate list, `routingAPI.calculateRoute` returns the empty
sequence, not the fallback leg. -/
theorem calculate_route_empty_geometry :
    calculateRoute ⟨1, 1⟩ ⟨2, 2⟩ (ProviderOutcome.answered ResponseCode.Ok [⟨some []⟩])
      = Except.ok [] := by
  rfl

/-- C15, amended. When the answer holds no route, or its first route has no
geometry or coordinates at all, `routingAPI.calculateRoute` returns the
interpolated fallback leg; its result is a non-empty waypoint sequence for
every provider outcome except an answer with code `'Ok'` whose first route
has an empty coordinate list. -/
theorem calculate_route_nonempty (start finish : Point) :
    (∀ code : ResponseCode,
      calculateRoute start finish (ProviderOutcome.answered code [])
        = Except.ok (calculateDirectRoute start finish defaultNumPoints)) ∧
    (∀ (code : ResponseCode) (rest : List ProviderRoute),
      calculateRoute start finish (ProviderOutcome.answered code (⟨none⟩ :: rest))
        = Except.ok (calculateDirectRoute start finish defaultNumPoints)) ∧
    (∀ outcome : ProviderOutcome,
      (∀ rest : List ProviderRoute,
        outcome ≠ ProviderOutcome.answered ResponseCode.Ok (⟨some []⟩ :: rest)) →
      ∃ route : List Point, calculateRoute start finish outcome = Except.ok route ∧
        route ≠ []) := by
  have hfb : calculateDirectRoute start finish defaultNumPoints ≠ [] := by
    intro h
    have := congrArg List.length h
    simp [calculateDirectRoute] at this
  refine ⟨fun code => ?_, fun code rest => ?_, fun outcome hne => ?_⟩
  · cases code <;> rfl
  · cases code <;> rfl
  · cases outcome with
    | fetchThrows => exact ⟨_, rfl, hfb⟩
    | notOk => exact ⟨_, rfl, hfb⟩
    | answered code routes =>
      cases code with
      | other => exact ⟨_, rfl, hfb⟩
      | Ok =>
        cases routes with
        | nil => exact ⟨_, rfl, hfb⟩
        | cons r rest =>
          obtain ⟨coords⟩ := r
          cases coords with
          | none => exact ⟨_, rfl, hfb⟩
          | some geometry =>
            refine ⟨geometry.map fun (coord : ℚ × ℚ) => ({ lat := coord.2, lng := coord.1 } : Point),
              rfl, ?_⟩
            intro h
            have hnil : geometry = [] := by simpa using h
            exact hne rest (by rw [hnil])

/-- Witness of C15 (amended): an answer whose first route has one coordinate
pair. -/
theorem calculate_route_nonempty_witness :
    ∃ route : List Point,
      calculateRoute ⟨1, 1⟩ ⟨2, 2⟩ (ProviderOutcome.answered ResponseCode.Ok [⟨some [(4, 3)]⟩])
        = Except.ok route ∧ route ≠ [] :=
  (calculate_route_nonempty ⟨1, 1⟩ ⟨2, 2⟩).2.2
    (ProviderOutcome.answered ResponseCode.Ok [⟨some [(4, 3)]⟩])
    (fun rest h => by
      simp only [ProviderOutcome.answered.injEq, List.cons.injEq, ProviderRoute.mk.injEq,
        Option.some.injEq] at h
      exact List.cons_ne_nil _ _ h.2.1)

/-- C16 fails on the code. On the running example component, the completing
tick of a driver leaves `isSimulating` true and the interval timer alive when
the `completed` status update fails, when no current delivery is set and when
no current location is set; the timer is cleared only when the update
succeeds. -/
theorem completion_keeps_timer_when_update_fails :
    (intervalTick (Driver.start [⟨0, 0⟩, ⟨1, 1⟩] ⟨7⟩ 1
      (some SimStatus.going_to_delivery))).statusRef = SimStatus.completed ∧
    ((tickOn ⟨false, true⟩ ⟨some ⟨7, RecordStatus.accepted, none, none⟩, some ⟨0, 0⟩, 0⟩
      (Driver.start [⟨0, 0⟩, ⟨1, 1⟩] ⟨7⟩ 1 (some SimStatus.going_to_delivery))
      Component.running).2.1.isSimulating = true ∧
     (tickOn ⟨false, true⟩ ⟨some ⟨7, RecordStatus.accepted, none, none⟩, some ⟨0, 0⟩, 0⟩
      (Driver.start [⟨0, 0⟩, ⟨1, 1⟩] ⟨7⟩ 1 (some SimStatus.going_to_delivery))
      Component.running).2.1.intervals.length = 1) ∧
    ((tickOn ⟨true, true⟩ ⟨none, some ⟨0, 0⟩, 0⟩
      (Driver.start [⟨0, 0⟩, ⟨1, 1⟩] ⟨7⟩ 1 (some SimStatus.going_to_delivery))
      Component.running).2.1.isSimulating = true ∧
     (tickOn ⟨true, true⟩ ⟨none, some ⟨0, 0⟩, 0⟩
      (Driver.start [⟨0, 0⟩, ⟨1, 1⟩] ⟨7⟩ 1 (some SimStatus.going_to_delivery))
      Component.running).2.1.intervals.length = 1) ∧
    ((tickOn ⟨true, true⟩ ⟨some ⟨7, RecordStatus.accepted, none, none⟩, none, 0⟩
      (Driver.start [⟨0, 0⟩, ⟨1, 1⟩] ⟨7⟩ 1 (some SimStatus.going_to_delivery))
      Component.running).2.1.isSimulating = true ∧
     (tickOn ⟨true, true⟩ ⟨some ⟨7, RecordStatus.accepted, none, none⟩, none, 0⟩
      (Driver.start [⟨0, 0⟩, ⟨1, 1⟩] ⟨7⟩ 1 (some SimStatus.going_to_delivery))
      Component.running).2.1.intervals.length = 1) ∧
    ((tickOn ⟨true, true⟩ ⟨some ⟨7, RecordStatus.accepted, none, none⟩, some ⟨0, 0⟩, 0⟩
      (Driver.start [⟨0, 0⟩, ⟨1, 1⟩] ⟨7⟩ 1 (some SimStatus.going_to_delivery))
      Component.running).2.1.isSimulating = false ∧
     (tickOn ⟨true, true⟩ ⟨some ⟨7, RecordStatus.accepted, none, none⟩, some ⟨0, 0⟩, 0⟩
      (Driver.start [⟨0, 0⟩, ⟨1, 1⟩] ⟨7⟩ 1 (some SimStatus.going_to_delivery))
      Component.running).2.1.intervals.length = 0) := by
  decide

/-- C17. When `deliveryAPI.accept` rejects, `handleAcceptDelivery` leaves the
local state as it was: the current delivery, the simulation status, the
route, the interval timers and the pending start timers are unchanged. -/
theorem failed_accept_changes_nothing (dev : Device) (delivery : DeliveryRecord)
    (fetched : Option (List ActiveDelivery)) (location : Option Point)
    (outcome1 outcome2 : ProviderOutcome) :
    handleAcceptDelivery dev delivery false fetched location outcome1 outcome2 = dev ∧
    (handleAcceptDelivery dev delivery false fetched location outcome1 outcome2).currentDelivery
      = dev.currentDelivery ∧
    (handleAcceptDelivery dev delivery false fetched location outcome1
      outcome2).component.statusRef = dev.component.statusRef ∧
    (handleAcceptDelivery dev delivery false fetched location outcome1
      outcome2).component.routePoints = dev.component.routePoints ∧
    (handleAcceptDelivery dev delivery false fetched location outcome1
      outcome2).component.intervals = dev.component.intervals ∧
    (handleAcceptDelivery dev delivery false fetched location outcome1
      outcome2).startTimers = dev.startTimers := by
  have h : handleAcceptDelivery dev delivery false fetched location outcome1 outcome2 = dev := by
    simp [handleAcceptDelivery]
  rw [h]
  exact ⟨rfl, rfl, rfl, rfl, rfl, rfl⟩

/-- The calls of `sendLocationViaWebSocket` are located. For every route and
start index inside the route, every location report in the log of the driver, after any sequence of ticks and dwell
expiries, carries a route index `i` with `0 ≤ i < len(route)` and the location
`routePoints[i]`, which is a waypoint of the route. -/
theorem reports_carry_waypoint (routePoints : List Point) (delivery : Delivery) (k : Int)
    (simStatus : Option SimStatus) (events : List Event)
    (h0 : 0 ≤ k) (hk : k < (routePoints.length : Int))
    (location : Option Point) (deliveryId : Nat) (i : Int) (s : SimStatus)
    (hmem : Effect.sendLocationViaWebSocket location deliveryId i s ∈
      (run (Driver.start routePoints delivery k simStatus) events).log) :
    0 ≤ i ∧ i < (routePoints.length : Int) ∧ location = getPoint routePoints i ∧
      ∃ p : Point, location = some p := by
  have hne : routePoints ≠ [] := by
    intro hnil
    rw [hnil] at hk
    simp at hk
    omega
  have hloc := run_located _ events (Driver.start_located routePoints delivery k simStatus hne h0)
  have hr : (run (Driver.start routePoints delivery k simStatus) events).routePoints
      = routePoints := run_routePoints _ events
  have h := hloc.reports _ hmem
  rw [hr] at h
  obtain ⟨a, b, c, e⟩ := h
  exact ⟨a, b, c, Option.isSome_iff_exists.mp e⟩

/-- Instance of the lemma above: three waypoints, start at index 0, the report
of the first tick (the arrival at the pickup, index 1). -/
theorem reports_carry_waypoint_witness :
    (0 : Int) ≤ 1 ∧ (1 : Int) < (([⟨0, 0⟩, ⟨1, 1⟩, ⟨2, 2⟩] : List Point).length : Int) ∧
    (some ⟨1, 1⟩ : Option Point) = getPoint [⟨0, 0⟩, ⟨1, 1⟩, ⟨2, 2⟩] 1 ∧
    ∃ p : Point, (some ⟨1, 1⟩ : Option Point) = some p :=
  reports_carry_waypoint [⟨0, 0⟩, ⟨1, 1⟩, ⟨2, 2⟩] ⟨7⟩ 0 none [Event.tick] (by decide)
    (by decide) (some ⟨1, 1⟩) 7 1 SimStatus.at_pickup (by decide)

/-- C18 fails on the code. On a route of four waypoints [(9, 9), (1, 1), (1, 1),
(5, 5)] started at index 0 by a closure that captured the rider position
(10, 10) and the route index 0, the tick that arrives at the pickup issues
two checkpoint writes: the one of `sendLocationViaWebSocket` carries index 2
with the waypoint (1, 1), the one of `handleUpdateStatus('in_progress')`
carries index 0 with the captured location (10, 10), which is not the
waypoint (9, 9) at index 0. -/
theorem arrival_write_sends_captured_location :
    (tickOn ⟨true, true⟩
      ⟨some ⟨7, RecordStatus.accepted, some ⟨1, 1⟩, some ⟨5, 5⟩⟩, some ⟨10, 10⟩, 0⟩
      (ticks 1 (Driver.start [⟨9, 9⟩, ⟨1, 1⟩, ⟨1, 1⟩, ⟨5, 5⟩] ⟨7⟩ 0
        (some SimStatus.going_to_pickup)))
      Component.initial).2.2
      = [Except.ok [WireEffect.updateStatus 7 none (some ⟨1, 1⟩) 2 SimStatus.at_pickup,
            WireEffect.locationUpdate 1 1 7],
         Except.ok [WireEffect.updateStatus 7 (some DeliveryStatus.in_progress)
            (some ⟨10, 10⟩) 0 SimStatus.at_pickup]] ∧
    (intervalTick (ticks 1 (Driver.start [⟨9, 9⟩, ⟨1, 1⟩, ⟨1, 1⟩, ⟨5, 5⟩] ⟨7⟩ 0
        (some SimStatus.going_to_pickup)))).log
      = (ticks 1 (Driver.start [⟨9, 9⟩, ⟨1, 1⟩, ⟨1, 1⟩, ⟨5, 5⟩] ⟨7⟩ 0
          (some SimStatus.going_to_pickup))).log ++
        [Effect.sendLocationViaWebSocket (some ⟨1, 1⟩) 7 2 SimStatus.at_pickup,
         Effect.handleUpdateStatus DeliveryStatus.in_progress] ∧
    (handleUpdateStatus ⟨true, true⟩
      ⟨some ⟨7, RecordStatus.accepted, some ⟨1, 1⟩, some ⟨5, 5⟩⟩, some ⟨10, 10⟩, 0⟩
      DeliveryStatus.in_progress
      { Component.initial with statusRef := SimStatus.at_pickup }).2
      = [WireEffect.updateStatus 7 (some DeliveryStatus.in_progress) (some ⟨10, 10⟩) 0
          SimStatus.at_pickup] ∧
    getPoint [⟨9, 9⟩, ⟨1, 1⟩, ⟨1, 1⟩, ⟨5, 5⟩] 0 = some ⟨9, 9⟩ ∧
    (some ⟨10, 10⟩ : Option Point) ≠ getPoint [⟨9, 9⟩, ⟨1, 1⟩, ⟨1, 1⟩, ⟨5, 5⟩] 0 := by
  refine ⟨rfl, by decide, by decide, by decide, by decide⟩

/-- C19 as stated fails: a driver resumed in `going_to_delivery` at the last
index, 2, of a route of three waypoints completes on its first tick and its
first report carries index 2, not `start index + 1 = 3`. -/
theorem first_report_at_last_index :
    reportIndices (run (Driver.start [⟨0, 0⟩, ⟨1, 1⟩, ⟨2, 2⟩] ⟨7⟩ 2
      (some SimStatus.going_to_delivery)) [Event.tick]).log = [2] ∧
    (reportIndices (run (Driver.start [⟨0, 0⟩, ⟨1, 1⟩, ⟨2, 2⟩] ⟨7⟩ 2
      (some SimStatus.going_to_delivery)) [Event.tick]).log).head? ≠ some (2 + 1) := by
  decide

/-- C19, amended. For every run of a driver on a non-empty route: when the
route has a waypoint after the start index (`start + 1 < len`), the first
reported index is `start + 1`; each later reported index is the previously
reported one or exceeds it by 1; and once the driver has issued the
`completed` update every index from `start + 1` to `len - 1` has been
reported. -/
theorem no_waypoint_skipped (routePoints : List Point) (delivery : Delivery) (k : Int)
    (simStatus : Option SimStatus) (events : List Event) (hne : routePoints ≠ []) :
    (k + 1 < (routePoints.length : Int) →
      ∀ a ∈ (reportIndices
        (run (Driver.start routePoints delivery k simStatus) events).log).head?, a = k + 1) ∧
    (reportIndices (run (Driver.start routePoints delivery k simStatus) events).log).Chain'
      (fun a b => a ≤ b ∧ b ≤ a + 1) ∧
    (Effect.handleUpdateStatus DeliveryStatus.completed ∈
        (run (Driver.start routePoints delivery k simStatus) events).log →
      ∀ i : Int, k < i → i < (routePoints.length : Int) →
        i ∈ reportIndices (run (Driver.start routePoints delivery k simStatus) events).log) := by
  have hs := run_stepwise k _ events (Driver.start_inv routePoints delivery k simStatus hne)
    (Driver.start_stepwise routePoints delivery k simStatus)
  have hr : (run (Driver.start routePoints delivery k simStatus) events).routePoints
      = routePoints := run_routePoints _ events
  have hl : (run (Driver.start routePoints delivery k simStatus) events).len
      = (routePoints.length : Int) := by simp [Driver.len, hr]
  refine ⟨?_, hs.chain, ?_⟩
  · intro hk a ha
    rcases hs.first (by rw [hl]; exact hk) with ⟨hnil, _⟩ | hhead
    · rw [hnil] at ha
      simp at ha
    · rw [hhead] at ha
      simp only [Option.mem_def, Option.some.injEq] at ha
      exact ha.symm
  · intro hc i h1 h2
    have hout := hs.finished hc
    rw [hl] at hout
    exact hs.covered i h1 (by omega) (by rw [hl]; exact h2)

/-- Witness of C19 (amended): three waypoints, start at index 0, a tick, the
dwell expiry and two further ticks report the indices 1, 2, 2. -/
theorem no_waypoint_skipped_witness :
    (∀ a ∈ (reportIndices (run (Driver.start [⟨0, 0⟩, ⟨1, 1⟩, ⟨2, 2⟩] ⟨7⟩ 0 none)
      [Event.tick, Event.dwell, Event.tick, Event.tick]).log).head?, a = 0 + 1) ∧
    (∀ i : Int, 0 < i → i < (([⟨0, 0⟩, ⟨1, 1⟩, ⟨2, 2⟩] : List Point).length : Int) →
      i ∈ reportIndices (run (Driver.start [⟨0, 0⟩, ⟨1, 1⟩, ⟨2, 2⟩] ⟨7⟩ 0 none)
        [Event.tick, Event.dwell, Event.tick, Event.tick]).log) :=
  ⟨(no_waypoint_skipped [⟨0, 0⟩, ⟨1, 1⟩, ⟨2, 2⟩] ⟨7⟩ 0 none
      [Event.tick, Event.dwell, Event.tick, Event.tick] (by simp)).1 (by decide),
    (no_waypoint_skipped [⟨0, 0⟩, ⟨1, 1⟩, ⟨2, 2⟩] ⟨7⟩ 0 none
      [Event.tick, Event.dwell, Event.tick, Event.tick] (by simp)).2.2 (by decide)⟩

/-- C20. The driver after a tick (tick counter, status, pickup flag and all
else it holds) is the same whatever the outcome of the checkpoint write and
the state of the socket; `sendLocationViaWebSocket` returns without an error
when the write fails and when the socket is not open; and for a defined
location it sends the `location_update` message exactly when the socket is
open, whether the write succeeded or not. -/
theorem tick_independent_of_network (net1 net2 : Network) (cap1 cap2 : Captured) (d : Driver)
    (c : Component) (location : Option Point) (p : Point) (deliveryId : Nat) (routeIndex : Int)
    (simStatus : SimStatus) :
    (tickOn net1 cap1 d c).1 = (tickOn net2 cap2 d c).1 ∧
    (tickOn net1 cap1 d c).1.currentIndex = (tickOn net2 cap2 d c).1.currentIndex ∧
    (tickOn net1 cap1 d c).1.statusRef = (tickOn net2 cap2 d c).1.statusRef ∧
    (tickOn net1 cap1 d c).1.pickupReached = (tickOn net2 cap2 d c).1.pickupReached ∧
    (∀ writeOk : Bool,
      sendLocationViaWebSocket ⟨writeOk, false⟩ location deliveryId routeIndex simStatus =
        Except.ok [WireEffect.updateStatus deliveryId none location routeIndex simStatus]) ∧
    (∀ socketOpen : Bool, ∃ sent : List WireEffect,
      sendLocationViaWebSocket ⟨false, socketOpen⟩ (some p) deliveryId routeIndex simStatus =
        Except.ok sent) ∧
    (∀ net : Network, ∃ sent : List WireEffect,
      sendLocationViaWebSocket net (some p) deliveryId routeIndex simStatus = Except.ok sent ∧
      (WireEffect.locationUpdate p.lat p.lng deliveryId ∈ sent ↔ net.socketOpen = true)) := by
  refine ⟨rfl, rfl, rfl, rfl, fun writeOk => ?_, fun socketOpen => ?_, fun net => ?_⟩
  · simp [sendLocationViaWebSocket]
  · cases socketOpen
    · exact ⟨[WireEffect.updateStatus deliveryId none (some p) routeIndex simStatus],
        by simp [sendLocationViaWebSocket]⟩
    · exact ⟨[WireEffect.updateStatus deliveryId none (some p) routeIndex simStatus,
          WireEffect.locationUpdate p.lat p.lng deliveryId],
        by simp [sendLocationViaWebSocket]⟩
  · obtain ⟨w, o⟩ := net
    cases o
    · exact ⟨[WireEffect.updateStatus deliveryId none (some p) routeIndex simStatus],
        by simp [sendLocationViaWebSocket], by simp⟩
    · exact ⟨[WireEffect.updateStatus deliveryId none (some p) routeIndex simStatus,
          WireEffect.locationUpdate p.lat p.lng deliveryId],
        by simp [sendLocationViaWebSocket], by simp⟩

/-- C21. When the provider answers with code `'Ok'` and a first route whose
geometry has `k` coordinate pairs `[lng, lat]`, `routingAPI.calculateRoute`
returns exactly `k` waypoints, in the same order, the `i`-th being
`{ lat: pair_i[1], lng: pair_i[0] }`. -/
theorem provider_geometry_kept (start finish : Point) (geometry : List (ℚ × ℚ))
    (rest : List ProviderRoute) :
    calculateRoute start finish
        (ProviderOutcome.answered ResponseCode.Ok (⟨some geometry⟩ :: rest))
      = Except.ok (geometry.map fun (pair : ℚ × ℚ) => ({ lat := pair.2, lng := pair.1 } : Point)) ∧
    (geometry.map fun (pair : ℚ × ℚ) => ({ lat := pair.2, lng := pair.1 } : Point)).length
      = geometry.length ∧
    ∀ i : Nat,
      (geometry.map fun (pair : ℚ × ℚ) => ({ lat := pair.2, lng := pair.1 } : Point)).get? i
        = (geometry.get? i).map fun (pair : ℚ × ℚ) => ({ lat := pair.2, lng := pair.1 } : Point) := by
  refine ⟨rfl, List.length_map _ _, fun i => ?_⟩
  simp [List.get?_eq_getElem?]

/-- C22. `stopSimulation` is idempotent: applied twice it yields the same state
as applied once, and after it the timer handle `simulationRef` is null and
`isSimulating` is false. -/
theorem stop_simulation_idempotent (c : Component) :
    stopSimulation (stopSimulation c) = stopSimulation c ∧
    (stopSimulation c).simulationRef = none ∧
    (stopSimulation c).isSimulating = false := by
  unfold stopSimulation
  cases h : c.simulationRef with
  | none => simp [h]
  | some handle => simp

/-- C23. From every driver state whose status is `completed`, an interval tick,
and any number of interval ticks, leaves the status `completed`. -/
theorem completed_is_terminal (d : Driver) (n : Nat)
    (h : d.statusRef = SimStatus.completed) :
    (intervalTick d).statusRef = SimStatus.completed ∧
    (ticks n d).statusRef = SimStatus.completed :=
  ⟨intervalTick_status_completed d h, ticks_status_completed n d h⟩

/-- Witness of C23: the driver that has just completed a route of two
waypoints, and three further ticks. -/
theorem completed_is_terminal_witness :
    (intervalTick (Driver.start [⟨0, 0⟩, ⟨1, 1⟩] ⟨7⟩ 1
      (some SimStatus.going_to_delivery))).statusRef = SimStatus.completed ∧
    (intervalTick (intervalTick (Driver.start [⟨0, 0⟩, ⟨1, 1⟩] ⟨7⟩ 1
      (some SimStatus.going_to_delivery)))).statusRef = SimStatus.completed ∧
    (ticks 3 (intervalTick (Driver.start [⟨0, 0⟩, ⟨1, 1⟩] ⟨7⟩ 1
      (some SimStatus.going_to_delivery)))).statusRef = SimStatus.completed :=
  ⟨by decide,
    completed_is_terminal (intervalTick (Driver.start [⟨0, 0⟩, ⟨1, 1⟩] ⟨7⟩ 1
      (some SimStatus.going_to_delivery))) 3 (by decide)⟩

/-- C26. A driver started with status `going_to_pickup` at a start index at or
beyond the pickup index never reaches `completed`: after every sequence of
ticks and dwell expiries its status is `going_to_pickup`, and once its counter
has reached `len(route)` no later event adds a call to its log. -/
theorem resumed_to_pickup_never_completes (routePoints : List Point) (delivery : Delivery)
    (k : Int) (events later : List Event) (hk : k ≥ pickupIndexOf routePoints) :
    (run (Driver.start routePoints delivery k (some SimStatus.going_to_pickup)) events).statusRef
      = SimStatus.going_to_pickup ∧
    ((routePoints.length : Int) ≤
        (run (Driver.start routePoints delivery k
          (some SimStatus.going_to_pickup)) events).currentIndex →
      (run (Driver.start routePoints delivery k (some SimStatus.going_to_pickup))
          (events ++ later)).log
        = (run (Driver.start routePoints delivery k
          (some SimStatus.going_to_pickup)) events).log) := by
  have h0 : (Driver.start routePoints delivery k (some SimStatus.going_to_pickup)).Passed :=
    ⟨rfl, by simp [Driver.start, hk], rfl⟩
  obtain ⟨hp, _⟩ := run_passed _ events h0
  refine ⟨hp.status, fun hl => ?_⟩
  rw [run_append]
  have hr : (run (Driver.start routePoints delivery k
      (some SimStatus.going_to_pickup)) events).routePoints = routePoints :=
    run_routePoints _ events
  exact (run_passed _ later hp).2 (by simp only [Driver.len, hr]; exact hl)

/-- Witness of C26: a route of one waypoint started at index 0; after one tick
the counter has left the route and two more ticks add nothing. -/
theorem resumed_to_pickup_never_completes_witness :
    (run (Driver.start [⟨0, 0⟩] ⟨7⟩ 0 (some SimStatus.going_to_pickup))
      [Event.tick]).statusRef = SimStatus.going_to_pickup ∧
    (run (Driver.start [⟨0, 0⟩] ⟨7⟩ 0 (some SimStatus.going_to_pickup))
      ([Event.tick] ++ [Event.tick, Event.tick])).log
      = (run (Driver.start [⟨0, 0⟩] ⟨7⟩ 0 (some SimStatus.going_to_pickup))
        [Event.tick]).log :=
  ⟨(resumed_to_pickup_never_completes [⟨0, 0⟩] ⟨7⟩ 0 [Event.tick]
      [Event.tick, Event.tick] (by decide)).1,
    (resumed_to_pickup_never_completes [⟨0, 0⟩] ⟨7⟩ 0 [Event.tick]
      [Event.tick, Event.tick] (by decide)).2 (by decide)⟩

/-- C27. In `RiderDeviceNew.startSimulation` the dwell timer is started only
when the `in_progress` update succeeds: on the tick that arrives at the
pickup a successful request adds one pending dwell timer, a failed one adds
none, and after a failed request every later sequence of ticks and dwell
expiries leaves the driver as it is, with status `at_pickup` and the route
index where it was. -/
theorem dwell_needs_successful_update (d : RiderDeviceNew.Driver)
    (events : List RiderDeviceNew.Event)
    (hs : d.statusRef = SimStatus.going_to_pickup) (hp : d.pickupReached = false)
    (hge : pickupIndexOf d.routePoints ≤ d.currentIndex + 1) (ht : d.dwellTimers = 0) :
    (RiderDeviceNew.intervalTick true d).dwellTimers = 1 ∧
    (RiderDeviceNew.intervalTick false d).dwellTimers = 0 ∧
    (RiderDeviceNew.intervalTick false d).statusRef = SimStatus.at_pickup ∧
    RiderDeviceNew.run (RiderDeviceNew.intervalTick false d) events
      = RiderDeviceNew.intervalTick false d := by
  have hfalse : RiderDeviceNew.intervalTick false d =
      { d with
        statusRef := SimStatus.at_pickup
        pickupReached := true
        currentIndex := d.currentIndex + 1
        currentRouteIndex := pickupIndexOf d.routePoints
        log := d.log ++
          [RiderDeviceNew.Effect.updateStatus d.delivery.delivery_id DeliveryStatus.in_progress
            (getPoint d.routePoints (pickupIndexOf d.routePoints))] } := by
    simp [RiderDeviceNew.intervalTick, hs, hp, hge]
  have hst : (RiderDeviceNew.intervalTick false d).statusRef = SimStatus.at_pickup := by
    rw [hfalse]
  have htm : (RiderDeviceNew.intervalTick false d).dwellTimers = 0 := by
    rw [hfalse]
    exact ht
  refine ⟨?_, htm, hst, RiderDeviceNew.stuck_without_timer _ events hst htm⟩
  simp [RiderDeviceNew.intervalTick, hs, hp, hge, ht]

/-- Witness of C27: three waypoints (pickup index 1); the first tick arrives
at the pickup, and with a failed request two ticks and a dwell expiry change
nothing. -/
theorem dwell_needs_successful_update_witness :
    (RiderDeviceNew.intervalTick true
      (RiderDeviceNew.startSimulation [⟨0, 0⟩, ⟨1, 1⟩, ⟨2, 2⟩] ⟨7⟩)).dwellTimers = 1 ∧
    (RiderDeviceNew.intervalTick false
      (RiderDeviceNew.startSimulation [⟨0, 0⟩, ⟨1, 1⟩, ⟨2, 2⟩] ⟨7⟩)).dwellTimers = 0 ∧
    (RiderDeviceNew.intervalTick false
      (RiderDeviceNew.startSimulation [⟨0, 0⟩, ⟨1, 1⟩, ⟨2, 2⟩] ⟨7⟩)).statusRef
      = SimStatus.at_pickup ∧
    RiderDeviceNew.run (RiderDeviceNew.intervalTick false
        (RiderDeviceNew.startSimulation [⟨0, 0⟩, ⟨1, 1⟩, ⟨2, 2⟩] ⟨7⟩))
        [RiderDeviceNew.Event.tick true, RiderDeviceNew.Event.dwell,
          RiderDeviceNew.Event.tick true]
      = RiderDeviceNew.intervalTick false
        (RiderDeviceNew.startSimulation [⟨0, 0⟩, ⟨1, 1⟩, ⟨2, 2⟩] ⟨7⟩) :=
  dwell_needs_successful_update (RiderDeviceNew.startSimulation [⟨0, 0⟩, ⟨1, 1⟩, ⟨2, 2⟩] ⟨7⟩)
    [RiderDeviceNew.Event.tick true, RiderDeviceNew.Event.dwell, RiderDeviceNew.Event.tick true]
    rfl rfl (by decide) rfl

/-- C24. For every sequence of random draws in `0..15`, `generateUUID` returns
a string of 36 characters with a hyphen at each of the positions 8, 13, 18
and 23 and a lowercase hexadecimal digit at every other position, the
character at position 14 being `4` and the one at position 19 one of `8`,
`9`, `a`, `b`. -/
theorem generate_uuid_is_v4 (draws : Nat → Fin 16) :
    (generateUUID draws).length = 36 ∧
    (∀ i : Fin 36,
      if i.val = 8 ∨ i.val = 13 ∨ i.val = 18 ∨ i.val = 23 then
        (generateUUID draws).data.get? i.val = some '-'
      else ∃ c : Char, (generateUUID draws).data.get? i.val = some c ∧ isLowerHex c = true) ∧
    (generateUUID draws).data.get? 14 = some '4' ∧
    ∃ c : Char, (generateUUID draws).data.get? 19 = some c ∧ c ∈ ['8', '9', 'a', 'b'] := by
  have hd := generateUUID_data draws
  refine ⟨?_, ?_, ?_, ?_⟩
  · show (generateUUID draws).data.length = 36
    rw [hd]
    rfl
  · intro i
    rw [hd]
    fin_cases i <;> simp [isLowerHex_draw, isLowerHex_variant]
    decide
  · rw [hd]
    rfl
  · rw [hd]
    exact ⟨_, rfl, variant_digit (draws 15)⟩

/-- C25 fails on the code. For the valid longitude 120.12345678
`roundCoordinate` returns 120.12345678, which has eight decimals but eleven
digits in all and does not fit a decimal field of 10 digits with 8
decimals. -/
theorem longitude_exceeds_decimal_field :
    ((-180 : ℚ) ≤ 12012345678 / 100000000 ∧ (12012345678 / 100000000 : ℚ) ≤ 180) ∧
    roundCoordinate (12012345678 / 100000000) = 12012345678 / 100000000 ∧
    ¬ fitsDecimal 10 8 (roundCoordinate (12012345678 / 100000000)) := by
  have hf : ⌊(12012345678 / 100000000 : ℚ) * (10 : ℚ) ^ 8 + 1 / 2⌋ = 12012345678 := by
    rw [Int.floor_eq_iff]
    constructor <;> norm_num
  have hr : roundCoordinate (12012345678 / 100000000) = 12012345678 / 100000000 := by
    simp only [roundCoordinate, toFixed]
    rw [if_neg (by norm_num), hf]
    norm_num
  refine ⟨by constructor <;> norm_num, hr, ?_⟩
  rw [hr]
  unfold fitsDecimal
  have h : (12012345678 / 100000000 : ℚ) * (10 : ℚ) ^ 8 = ((12012345678 : Int) : ℚ) := by
    norm_num
  rw [h, Rat.num_intCast]
  norm_num

/-- C28. For every three positions and point count `N ≥ 1`, the route made of
`calculateDirectRoute(current, pickup, N)` followed by
`calculateDirectRoute(pickup, dropoff, N)` has `2(N+1)` waypoints, holds the
pickup location at index `N` and at index `N + 1`, and the driver's pickup
index `floor(len / 2)` is `N + 1`, where the waypoint is the pickup
location. -/
theorem fallback_route_pickup (current pickup dropoff : Point) (N : Nat) (hN : 1 ≤ N) :
    (calculateDirectRoute current pickup N ++ calculateDirectRoute pickup dropoff N).length
      = 2 * (N + 1) ∧
    (calculateDirectRoute current pickup N ++ calculateDirectRoute pickup dropoff N).get? N
      = some pickup ∧
    (calculateDirectRoute current pickup N ++ calculateDirectRoute pickup dropoff N).get? (N + 1)
      = some pickup ∧
    pickupIndexOf (calculateDirectRoute current pickup N ++ calculateDirectRoute pickup dropoff N)
      = ((N + 1 : Nat) : Int) ∧
    getPoint (calculateDirectRoute current pickup N ++ calculateDirectRoute pickup dropoff N)
      (pickupIndexOf
        (calculateDirectRoute current pickup N ++ calculateDirectRoute pickup dropoff N))
      = some pickup := by
  have hlen1 := calculateDirectRoute_length current pickup N
  have hlen2 := calculateDirectRoute_length pickup dropoff N
  have hN1 : (calculateDirectRoute current pickup N ++ calculateDirectRoute pickup dropoff N).get? N
      = some pickup := by
    rw [List.get?_eq_getElem?, List.getElem?_append_left (by omega), ← List.get?_eq_getElem?]
    exact calculateDirectRoute_last current pickup N hN
  have hN2 : (calculateDirectRoute current pickup N ++
      calculateDirectRoute pickup dropoff N).get? (N + 1) = some pickup := by
    rw [List.get?_eq_getElem?, List.getElem?_append_right (by omega), hlen1, Nat.sub_self,
      ← List.get?_eq_getElem?]
    exact calculateDirectRoute_first pickup dropoff N
  have hpi : pickupIndexOf (calculateDirectRoute current pickup N ++
      calculateDirectRoute pickup dropoff N) = ((N + 1 : Nat) : Int) := by
    simp only [pickupIndexOf, List.length_append, hlen1, hlen2]
    have : (N + 1 + (N + 1)) / 2 = N + 1 := by omega
    rw [this]
  refine ⟨by rw [List.length_append, hlen1, hlen2]; ring, hN1, hN2, hpi, ?_⟩
  rw [hpi, getPoint, if_pos (Int.ofNat_nonneg _), Int.toNat_ofNat]
  exact hN2

/-- Witness of C28: one segment per leg, from (0, 0) over (1, 1) to (2, 2). -/
theorem fallback_route_pickup_witness :
    (calculateDirectRoute ⟨0, 0⟩ ⟨1, 1⟩ 1 ++ calculateDirectRoute ⟨1, 1⟩ ⟨2, 2⟩ 1).length
      = 2 * (1 + 1) ∧
    (calculateDirectRoute ⟨0, 0⟩ ⟨1, 1⟩ 1 ++ calculateDirectRoute ⟨1, 1⟩ ⟨2, 2⟩ 1).get? 1
      = some ⟨1, 1⟩ :=
  ⟨(fallback_route_pickup ⟨0, 0⟩ ⟨1, 1⟩ ⟨2, 2⟩ 1 (le_refl 1)).1,
    (fallback_route_pickup ⟨0, 0⟩ ⟨1, 1⟩ ⟨2, 2⟩ 1 (le_refl 1)).2.1⟩

/-- C29. For every start, end and point count `N ≥ 1`, `calculateDirectRoute`
returns `N + 1` points, the first equal to the start and the last equal to the
end (over exact arithmetic); the point at index `i` is
`start + (end - start) * t` with `t = i / N` between 0 and 1, and the ratio
`i / N` grows strictly with `i`. -/
theorem direct_route_on_segment (start finish : Point) (N : Nat) (hN : 1 ≤ N) :
    (calculateDirectRoute start finish N).length = N + 1 ∧
    (calculateDirectRoute start finish N).get? 0 = some start ∧
    (calculateDirectRoute start finish N).get? N = some finish ∧
    (∀ i : Nat, i ≤ N →
      (0 : ℚ) ≤ (i : ℚ) / (N : ℚ) ∧ (i : ℚ) / (N : ℚ) ≤ 1 ∧
      (calculateDirectRoute start finish N).get? i =
        some { lat := start.lat + (finish.lat - start.lat) * ((i : ℚ) / (N : ℚ))
               lng := start.lng + (finish.lng - start.lng) * ((i : ℚ) / (N : ℚ)) }) ∧
    (∀ i j : Nat, i < j → j ≤ N → (i : ℚ) / (N : ℚ) < (j : ℚ) / (N : ℚ)) := by
  have hpos : (0 : ℚ) < (N : ℚ) := by
    have : 0 < N := hN
    exact_mod_cast this
  refine ⟨calculateDirectRoute_length start finish N, calculateDirectRoute_first start finish N,
    calculateDirectRoute_last start finish N hN, ?_, ?_⟩
  · intro i hi
    refine ⟨by positivity, ?_, calculateDirectRoute_get start finish N i hi⟩
    rw [div_le_one hpos]
    exact_mod_cast hi
  · intro i j hij _
    rw [div_lt_div_iff_of_pos_right hpos]
    exact_mod_cast hij

/-- Witness of C29: two segments from (0, 0) to (2, 2). -/
theorem direct_route_on_segment_witness :
    (calculateDirectRoute ⟨0, 0⟩ ⟨2, 2⟩ 2).length = 2 + 1 ∧
    (calculateDirectRoute ⟨0, 0⟩ ⟨2, 2⟩ 2).get? 0 = some ⟨0, 0⟩ ∧
    (calculateDirectRoute ⟨0, 0⟩ ⟨2, 2⟩ 2).get? 2 = some ⟨2, 2⟩ :=
  ⟨(direct_route_on_segment ⟨0, 0⟩ ⟨2, 2⟩ 2 (by decide)).1,
    (direct_route_on_segment ⟨0, 0⟩ ⟨2, 2⟩ 2 (by decide)).2.1,
    (direct_route_on_segment ⟨0, 0⟩ ⟨2, 2⟩ 2 (by decide)).2.2.1⟩

/-- Messages that keep the order. A `location_update` (with or without
`data.data`), a message of an unrecognised type and a message that cannot be
parsed leave the order record unchanged; and an `order_update` whose
`data.data` carries neither `order_status` nor `status` leaves a tracked
order as it is. -/
theorem other_messages_keep_order (refetchOnAssign : Bool) (t : Tracker) :
    (∀ data : Option (Option Point), ∃ t1 : Tracker,
      onMessage refetchOnAssign t (Message.location_update data) = Except.ok t1 ∧
        t1.order = t.order) ∧
    (∀ type : String, onMessage refetchOnAssign t (Message.other type) = Except.ok t) ∧
    onMessage refetchOnAssign t Message.unparsable = Except.ok t ∧
    (∀ order_status status : Option String, truthy order_status = none → truthy status = none →
      ∀ prev : OrderRecord, t.order = some prev → ∃ t1 : Tracker,
        onMessage refetchOnAssign t (Message.order_update (some (order_status, status)))
          = Except.ok t1 ∧ t1.order = some prev) := by
  refine ⟨fun data => ?_, fun type => rfl, rfl, fun order_status status h1 h2 prev hprev => ?_⟩
  · cases data with
    | none => exact ⟨t, rfl, rfl⟩
    | some location =>
      cases location with
      | none => exact ⟨t, rfl, rfl⟩
      | some l => exact ⟨{ t with riderLocation := some l }, rfl, rfl⟩
  · have hupd : onMessage refetchOnAssign t
        (Message.order_update (some (order_status, status))) =
        Except.ok
          { t with
            order := some { prev with status := prev.status }
            refetches := t.refetches + 1 } := by
      simp only [onMessage, h1, h2, Option.orElse, hprev]
    rw [hupd]
    exact ⟨_, rfl, rfl⟩

/-- Instance of the lemma above: on a tracked order with status `in_progress`,
an `order_update` whose data carries no status leaves the order unchanged. -/
theorem other_messages_keep_order_instance :
    ∃ t1 : Tracker,
      onMessage false
          { order := some { status := some "in_progress", rider := some 3, details := some 1 },
            riderLocation := none, refetches := 0 }
          (Message.order_update (some (none, some ""))) = Except.ok t1 ∧
        t1.order = some { status := some "in_progress", rider := some 3, details := some 1 } :=
  (other_messages_keep_order false
      { order := some { status := some "in_progress", rider := some 3, details := some 1 },
        riderLocation := none, refetches := 0 }).2.2.2 none (some "") rfl rfl
    { status := some "in_progress", rider := some 3, details := some 1 } rfl

/-- C30 fails on the code. An `order_update` without `data.data`, which carries
neither `order_status` nor `status`, does not leave the order as it is: the
updater queued by the handler throws when React runs it, outside the
`try`/`catch`, for every tracker and in both components, and so does the
updater of a `rider_assigned` without `data.data`, and the updater of an
`order_update` with empty data on a tracker without an order. The same
missing `data.data` in a `location_update` is read inside the `try` and
caught. -/
theorem order_update_without_data_crashes (refetchOnAssign : Bool) (t : Tracker) :
    onMessage refetchOnAssign t (Message.order_update none) = Except.error "TypeError" ∧
    onMessage refetchOnAssign t (Message.rider_assigned none) = Except.error "TypeError" ∧
    onMessage refetchOnAssign { t with order := none } (Message.order_update (some (none, none)))
      = Except.error "TypeError" ∧
    onMessage refetchOnAssign t (Message.location_update none) = Except.ok t :=
  ⟨rfl, rfl, rfl, rfl⟩

end RiderService
